import Mathlib

/-!
Verification development for the `secure-email-otp` package.

The TypeScript sources are shallowly embedded:
* `src/core/otp-generator.ts` — the cryptographic helpers.  The external
  primitives (node `crypto` HMAC-SHA256 and `bcrypt`) are idealised as
  deterministic collision-free tagging functions; everything the package
  itself computes around them (data-string layout, the constant-time
  comparison loop) is translated literally.
* `src/adapters/database/memory-adapter.ts` — the default record store,
  a JS `Map` keyed by record id, embedded as a `List OtpRecord` in
  insertion order (JS `Map.values()` iterates in insertion order;
  `Map.set` on an existing key replaces in place, otherwise appends).
* `src/adapters/rate-limiter/memory-rate-limiter.ts` — the default rate
  governor, a JS `Map` from key to `{count, resetTime}` embedded as an
  association list in insertion order.
* `src/core/secure-email-otp.ts` — the engine: `generate`, `verify`,
  `healthCheck`, `checkMetaMismatch`.

Asynchrony is sequentialised (each adapter call runs to completion in
order, exactly as the `await` chain does), `Date.now()` is an explicit
`now : Nat` parameter (milliseconds), thrown `OtpError`s become
`Except OtpErrorCode` results paired with the post-state, and the random
outputs of `generateOtp` / `generateSessionId` / `generateId` are
explicit parameters.
-/

namespace SecureOtp

/-! ### Idealised cryptographic primitives (`src/core/otp-generator.ts`) -/

/-- The data string `${otp}:${context}:${sessionId}` fed to the HMAC in
`OtpGenerator.createHmac`. -/
def hmacData (otp context sessionId : String) : String :=
  otp ++ ":" ++ context ++ ":" ++ sessionId

/-- `OtpGenerator.createHmac`: HMAC-SHA256 keyed by the server secret over
`hmacData`.  The hash itself is idealised as an injective tagging function of
(secret, data); the data-string layout is the source's. -/
def createHmac (serverSecret otp context sessionId : String) : String :=
  "hmac." ++ serverSecret ++ "." ++ hmacData otp context sessionId

/-- `OtpGenerator.hashOtp`: bcrypt, idealised as a deterministic one-way tag
(the salted bcrypt digest verifies exactly the preimage it was computed
from, which is what this models). -/
def hashOtp (otp : String) : String :=
  "bcrypt." ++ otp

/-- `OtpGenerator.verifyOtpHash`: `bcrypt.compare(otp, hash)` — true exactly
when `hash` is a bcrypt digest of `otp`. -/
def verifyOtpHash (otp hash : String) : Bool :=
  hash = hashOtp otp

/-- The accumulator loop of `OtpGenerator.verifyHmac`:
`result |= a.charCodeAt(i) ^ b.charCodeAt(i)` over the zipped characters. -/
def ctAcc : Nat → List (Char × Char) → Nat
  | acc, [] => acc
  | acc, p :: ps => ctAcc (acc ||| (p.1.toNat ^^^ p.2.toNat)) ps

/-- The constant-time string comparison of `OtpGenerator.verifyHmac`:
length check, then xor-accumulate, then `result === 0`. -/
def ctEq (a b : String) : Bool :=
  if a.length ≠ b.length then false
  else ctAcc 0 (a.toList.zip b.toList) = 0

/-- `OtpGenerator.verifyHmac`: recompute the tag and compare in constant
time. -/
def verifyHmac (serverSecret otp context sessionId expectedHmac : String) : Bool :=
  ctEq (createHmac serverSecret otp context sessionId) expectedHmac

/-! ### Data model (`src/types.ts`) -/

/-- `RequestMeta` from `src/types.ts`; the optional fields are `Option`
(`none` = JS `undefined`). -/
structure RequestMeta where
  ip : String
  userAgent : String
  deviceId : Option String := none
  platform : Option String := none
  browser : Option String := none
  os : Option String := none
deriving DecidableEq, Repr

/-- `OtpRecord` from `src/types.ts`.  Dates are milliseconds since epoch. -/
structure OtpRecord where
  id : String
  email : String
  context : String
  sessionId : String
  channel : String
  otpHash : String
  hmac : String
  expiresAt : Nat
  attempts : Nat
  maxAttempts : Nat
  isUsed : Bool
  isLocked : Bool
  requestMeta : RequestMeta
  createdAt : Nat
  updatedAt : Nat
deriving DecidableEq, Repr

/-- `OtpErrorCode` from `src/types.ts`. -/
inductive OtpErrorCode where
  | EXPIRED
  | INVALID
  | ATTEMPTS_EXCEEDED
  | META_MISMATCH
  | RATE_LIMITED
  | ALREADY_USED
  | LOCKED
  | EMAIL_SEND_FAILED
  | DATABASE_ERROR
  | MISSING_IDENTIFIER
deriving DecidableEq, Repr

/-- `OtpGenerationResult` from `src/types.ts`; `otp = none` models the field
being omitted from the returned object. -/
structure OtpGenerationResult where
  sessionId : String
  expiresAt : Nat
  isResent : Bool
  otp : Option String
deriving DecidableEq, Repr

/-- `OtpVerificationResult` from `src/types.ts`. -/
structure OtpVerificationResult where
  success : Bool
  sessionId : String
  email : String
  context : String
  channel : String
deriving DecidableEq, Repr

/-- One message handed to the notifier (`EmailProvider.sendEmail`); we track
the recipient and whether a plaintext code was embedded in the body. -/
structure SentEmail where
  recipient : String
  otpInBody : Option String
deriving DecidableEq, Repr

/-- The resolved engine configuration (`Required<OtpConfig>` after the
constructor applies defaults), with the rate-limit sub-object flattened. -/
structure OtpConfig where
  otpLength : Nat := 6
  expiryMs : Nat := 2 * 60 * 1000
  maxRetries : Nat := 5
  strictMode : Bool := true
  maxPerWindow : Nat := 3
  windowMs : Nat := 15 * 60 * 1000
deriving DecidableEq, Repr

/-! ### Default in-memory record store
(`src/adapters/database/memory-adapter.ts`) -/

/-- `MemoryDatabaseAdapter.createOtp` stores under a fresh id with
`Map.set`: replace the entry with that id if present, else append. -/
def createOtpStore (rec : OtpRecord) : List OtpRecord → List OtpRecord
  | [] => [rec]
  | r :: rs => if r.id = rec.id then rec :: rs else r :: createOtpStore rec rs

/-- `MemoryDatabaseAdapter.findOtp`: first record (insertion order) matching
channel, context, sessionId and email. -/
def findOtp (email context sessionId channel : String)
    (store : List OtpRecord) : Option OtpRecord :=
  store.find? fun o =>
    decide (o.channel = channel ∧ o.context = context ∧
      o.sessionId = sessionId ∧ o.email = email)

/-- Lookup by record id (`Map.get`). -/
def findById (id : String) (store : List OtpRecord) : Option OtpRecord :=
  store.find? fun o => decide (o.id = id)

/-- `MemoryDatabaseAdapter.updateOtp` merged with the `Map.set` write-back:
replace the record with the given id by its updated version
(`{...otp, ...updates, updatedAt: now}` is the supplied function).  The
adapter throws when the id is absent; callers that can hit that case test
for presence explicitly. -/
def updateOtp (id : String) (f : OtpRecord → OtpRecord) :
    List OtpRecord → List OtpRecord
  | [] => []
  | r :: rs => if r.id = id then f r :: rs else r :: updateOtp id f rs

/-- `MemoryDatabaseAdapter.deleteOtp` (`Map.delete`). -/
def deleteOtp (id : String) (store : List OtpRecord) : List OtpRecord :=
  store.filter fun r => decide (¬ r.id = id)

/-- `MemoryDatabaseAdapter.findActiveOtp`: first record matching channel,
context, `!isUsed`, `!isLocked`, `expiresAt > now`, email. -/
def findActiveOtp (email context channel : String) (now : Nat)
    (store : List OtpRecord) : Option OtpRecord :=
  store.find? fun o =>
    decide (o.channel = channel ∧ o.context = context ∧
      o.isUsed = false ∧ o.isLocked = false ∧ now < o.expiresAt ∧
      o.email = email)

/-- `MemoryDatabaseAdapter.cleanupExpiredOtps`: delete every record with
`expiresAt <= now`. -/
def cleanupExpiredOtps (now : Nat) (store : List OtpRecord) : List OtpRecord :=
  store.filter fun o => decide (now < o.expiresAt)

/-- The fold realising the head of the stable descending-`createdAt` sort in
`cleanupConflictingOtps`: the first element with maximal `createdAt`. -/
def mostRecent (r : OtpRecord) (rs : List OtpRecord) : OtpRecord :=
  rs.foldl (fun best x => if best.createdAt < x.createdAt then x else best) r

/-- `MemoryDatabaseAdapter.cleanupConflictingOtps`: if more than one record
matches (email, context, channel), keep only the most recent by `createdAt`
(ties resolved to the earliest-inserted, as the JS stable sort does) and
delete the others by id. -/
def cleanupConflictingOtps (email context channel : String)
    (store : List OtpRecord) : List OtpRecord :=
  let ms := store.filter fun o =>
    decide (o.email = email ∧ o.context = context ∧ o.channel = channel)
  match ms with
  | [] => store
  | [_] => store
  | m :: rest =>
      let keep := mostRecent m rest
      let removeIds := ((m :: rest).erase keep).map fun o => o.id
      store.filter fun o => decide (¬ o.id ∈ removeIds)

/-! ### Default in-memory rate governor
(`src/adapters/rate-limiter/memory-rate-limiter.ts`) -/

/-- `RateLimitEntry` from the memory rate limiter. -/
structure RateLimitEntry where
  count : Nat
  resetTime : Nat
deriving DecidableEq, Repr

/-- The limiter's `Map<string, RateLimitEntry>` in insertion order. -/
abbrev Limits := List (String × RateLimitEntry)

/-- `Map.get`. -/
def lget (m : Limits) (k : String) : Option RateLimitEntry :=
  (m.find? fun p => decide (p.1 = k)).map fun p => p.2

/-- `Map.set`: replace in place if the key exists, else append. -/
def lset (m : Limits) (k : String) (v : RateLimitEntry) : Limits :=
  match m with
  | [] => [(k, v)]
  | p :: ps => if p.1 = k then (k, v) :: ps else p :: lset ps k v

/-- `Map.delete`. -/
def ldel (m : Limits) (k : String) : Limits :=
  m.filter fun p => decide (¬ p.1 = k)

/-- `MemoryRateLimiterAdapter.checkLimit`: no entry → allow; expired window →
delete the entry and allow; otherwise allow iff `count < limit`.  Returns the
boolean together with the (possibly mutated) map. -/
def checkLimit (m : Limits) (now : Nat) (key : String) (limit : Nat) :
    Bool × Limits :=
  match lget m key with
  | none => (true, m)
  | some entry =>
      if entry.resetTime < now then (true, ldel m key)
      else (decide (entry.count < limit), m)

/-- `MemoryRateLimiterAdapter.increment`: start a window of 1, restart an
expired window, or bump the count of a live window. -/
def increment (m : Limits) (now : Nat) (key : String) (windowMs : Nat) :
    Limits :=
  match lget m key with
  | none => lset m key ⟨1, now + windowMs⟩
  | some entry =>
      if entry.resetTime < now then lset m key ⟨1, now + windowMs⟩
      else lset m key ⟨entry.count + 1, entry.resetTime⟩

/-! ### The engine (`src/core/secure-email-otp.ts`) -/

/-- The mutable world the engine acts on: the record store, the rate
governor's map, and the stream of messages handed to the notifier. -/
structure EngineState where
  store : List OtpRecord
  limits : Limits
  outbox : List SentEmail
deriving DecidableEq, Repr

/-- `SecureEmailOtp.checkMetaMismatch`: ip or userAgent differ, or (when the
original value is truthy — a JS non-empty string) deviceId / platform
differ. -/
def checkMetaMismatch (originalMeta currentMeta : RequestMeta) : Bool :=
  decide (¬ originalMeta.ip = currentMeta.ip) ||
  decide (¬ originalMeta.userAgent = currentMeta.userAgent) ||
  (match originalMeta.deviceId with
   | none => false
   | some d => decide (¬ d = "") && decide (¬ some d = currentMeta.deviceId)) ||
  (match originalMeta.platform with
   | none => false
   | some p => decide (¬ p = "") && decide (¬ some p = currentMeta.platform))

/-- Lines 96-122 of `generate`: run `cleanupConflictingOtps`, then look for
an active record for (email, context, 'email'); if found, mark it used
(`isResent := true`); should that update throw — only possible when the id
is absent, which `findActiveOtp` rules out here — fall back to deleting it
(`isResent` stays false).  Returns the new store and `isResent`. -/
def reconcileFound (email context : String) (now : Nat)
    (store1 : List OtpRecord) : List OtpRecord × Bool :=
  match findActiveOtp email context "email" now store1 with
  | none => (store1, false)
  | some existing =>
      if store1.any fun r => decide (r.id = existing.id) then
        (updateOtp existing.id
          (fun r => { r with isUsed := true, updatedAt := now }) store1, true)
      else
        (deleteOtp existing.id store1, false)

def reconcileActive (email context : String) (now : Nat)
    (store : List OtpRecord) : List OtpRecord × Bool :=
  reconcileFound email context now
    (cleanupConflictingOtps email context "email" store)

/-- The record `generate` asks the store to create (the argument of
`dbAdapter.createOtp` plus the adapter-chosen id and timestamps).  Note the
memory adapter never raises a duplicate-key error, so the retry loop runs
exactly once and the stored session id is the originally drawn one. -/
def newOtpRecord (cfg : OtpConfig) (serverSecret email context sessionId
    recId otp : String) (meta : RequestMeta) (now : Nat) : OtpRecord :=
  { id := recId
    email := email
    context := context
    sessionId := sessionId
    channel := "email"
    otpHash := hashOtp otp
    hmac := createHmac serverSecret otp context sessionId
    expiresAt := now + cfg.expiryMs
    attempts := 0
    maxAttempts := cfg.maxRetries
    isUsed := false
    isLocked := false
    requestMeta := meta
    createdAt := now
    updatedAt := now }

/-- `SecureEmailOtp.generate` with the default in-memory adapters.  `sendOk`
is whether the notifier's `sendEmail` resolves; `sessionId`, `recId` and
`otp` are the random draws of `generateSessionId` / `generateId` /
`generateOtp`.  Thrown `OtpError`s become `.error` outcomes, paired with the
state as mutated up to the throw. -/
def generate (cfg : OtpConfig) (serverSecret : String) (sendOk : Bool)
    (email context : String) (meta : RequestMeta) (now : Nat)
    (sessionId recId otp : String) (st : EngineState) :
    Except OtpErrorCode OtpGenerationResult × EngineState :=
  if email = "" ∨ context = "" then (.error .INVALID, st)
  else
    let key := "otp:" ++ email ++ ":email"
    let chk := checkLimit st.limits now key cfg.maxPerWindow
    if chk.1 = false then
      (.error .RATE_LIMITED, { st with limits := chk.2 })
    else
      let limits2 := increment chk.2 now key cfg.windowMs
      let rec1 := reconcileActive email context now st.store
      let newRec := newOtpRecord cfg serverSecret email context sessionId
        recId otp meta now
      let store2 := createOtpStore newRec rec1.1
      if sendOk then
        (.ok { sessionId := newRec.sessionId
               expiresAt := now + cfg.expiryMs
               isResent := rec1.2
               otp := if cfg.strictMode then none else some otp },
         { store := store2, limits := limits2
           outbox := st.outbox ++ [⟨email, some otp⟩] })
      else
        (.error .EMAIL_SEND_FAILED,
         { store := deleteOtp newRec.id store2, limits := limits2
           outbox := st.outbox })

/-- `SecureEmailOtp.verify` with the default in-memory store.  `clientHash`
is the code value the caller submits. -/
def verify (cfg : OtpConfig) (serverSecret : String)
    (email clientHash context sessionId : String) (meta : RequestMeta)
    (now : Nat) (st : EngineState) :
    Except OtpErrorCode OtpVerificationResult × EngineState :=
  if email = "" ∨ clientHash = "" ∨ context = "" ∨ sessionId = "" then
    (.error .INVALID, st)
  else
    match findOtp email context sessionId "email" st.store with
    | none => (.error .INVALID, st)
    | some otpRecord =>
      if otpRecord.isUsed then (.error .ALREADY_USED, st)
      else if otpRecord.isLocked then (.error .LOCKED, st)
      else if otpRecord.expiresAt < now then (.error .EXPIRED, st)
      else
        let isValidHash := verifyOtpHash clientHash otpRecord.otpHash
        let isValidHmac := verifyHmac serverSecret clientHash context
          sessionId otpRecord.hmac
        if (isValidHash && isValidHmac) = false then
          let newAttempts := otpRecord.attempts + 1
          let nowLocked := decide (otpRecord.maxAttempts ≤ newAttempts)
          let store1 := updateOtp otpRecord.id
            (fun r => { r with attempts := newAttempts,
                               isLocked := nowLocked, updatedAt := now })
            st.store
          if nowLocked then
            (.error .ATTEMPTS_EXCEEDED, { st with store := store1 })
          else
            (.error .INVALID, { st with store := store1 })
        else if cfg.strictMode &&
            checkMetaMismatch otpRecord.requestMeta meta then
          (.error .META_MISMATCH, st)
        else
          (.ok { success := true, sessionId := sessionId, email := email
                 context := context, channel := "email" },
           { st with store :=
               (updateOtp otpRecord.id
                 (fun r => { r with isUsed := true, updatedAt := now })
                 st.store) })

/-- `HealthCheckResult.status`. -/
inductive HealthStatus where
  | healthy
  | degraded
  | unhealthy
deriving DecidableEq, Repr

/-- The outcome of `SecureEmailOtp.healthCheck`. -/
structure HealthCheckResult where
  status : HealthStatus
  database : Bool
  emailProvider : Bool
  rateLimiter : Bool
deriving DecidableEq, Repr

/-- `SecureEmailOtp.healthCheck`: probe the store with
`cleanupExpiredOtps()`, the notifier with a test send to
`health-check@example.com`, and the governor with
`checkLimit('health-check', 1, 60000)`; each probe's exception is swallowed
into a boolean.  `dbOk` / `notifOk` / `rlOk` say whether the respective
adapter call resolves. -/
def healthCheck (dbOk notifOk rlOk : Bool) (now : Nat) (st : EngineState) :
    HealthCheckResult × EngineState :=
  let store1 := if dbOk then cleanupExpiredOtps now st.store else st.store
  let outbox1 := if notifOk then
      st.outbox ++ [⟨"health-check@example.com", none⟩] else st.outbox
  let limits1 := if rlOk then (checkLimit st.limits now "health-check" 1).2
    else st.limits
  let healthyChecks := (if dbOk then 1 else 0) + (if notifOk then 1 else 0) +
    (if rlOk then 1 else 0)
  let status : HealthStatus :=
    if healthyChecks = 3 then .healthy
    else if 1 ≤ healthyChecks then .degraded
    else .unhealthy
  ({ status := status, database := dbOk, emailProvider := notifOk
     rateLimiter := rlOk },
   { store := store1, limits := limits1, outbox := outbox1 })

/-! ### The duplicate-key retry loop of `generate` (lines 139-177)

The in-memory adapter never signals a duplicate key, but the Mongo-backed
adapters can (`error.code === 11000`).  `createOtpWithRetry` embeds the
loop against an abstract store: `dupKey k` says whether the create call of
iteration `k` (`retryCount = k`) raises a duplicate-key error, and
`freshSessionId k` is the session id `generateSessionId()` draws on
iteration `k`.  Note the loop rebuilds only the `sessionId` field from the
fresh draw; the `hmac` field is always computed from the original
`sessionId` variable. -/

/-- The `dbAdapter.createOtp` argument built on iteration `retryCount` of
the retry loop (identity fields omitted). -/
def retryAttemptRecord (serverSecret context sessionId : String)
    (freshSessionId : Nat → String) (otp : String) (retryCount : Nat) :
    String × String :=
  ((if 0 < retryCount then freshSessionId retryCount else sessionId),
   createHmac serverSecret otp context sessionId)

/-- The retry loop: at most `maxRetries = 3` create attempts; a
duplicate-key failure with retries left draws a fresh session id and tries
again; any exhausted failure propagates (`.error`).  Returns the
(sessionId, hmac) pair of the record actually persisted. -/
def createOtpWithRetry (serverSecret context sessionId : String)
    (freshSessionId : Nat → String) (otp : String) (dupKey : Nat → Bool) :
    Nat → Except OtpErrorCode (String × String)
  | retryCount =>
    if h : retryCount < 3 then
      if dupKey retryCount then
        if retryCount + 1 < 3 then
          createOtpWithRetry serverSecret context sessionId freshSessionId
            otp dupKey (retryCount + 1)
        else .error .DATABASE_ERROR
      else .ok (retryAttemptRecord serverSecret context sessionId
        freshSessionId otp retryCount)
    else .error .DATABASE_ERROR
  termination_by retryCount => 3 - retryCount

/-! ### Basic lemmas about the embedded operations -/

theorem ctAcc_self : ∀ (l : List Char) (acc : Nat), ctAcc acc (l.zip l) = acc
  | [], _ => rfl
  | c :: cs, acc => by
      have h : c.toNat ^^^ c.toNat = 0 := Nat.xor_self _
      show ctAcc (acc ||| (c.toNat ^^^ c.toNat)) (cs.zip cs) = acc
      rw [h, Nat.or_zero]
      exact ctAcc_self cs acc

/-- The constant-time comparison accepts a string compared with itself. -/
theorem ctEq_self (a : String) : ctEq a a = true := by
  simp [ctEq, ctAcc_self]

/-- A correct code passes the bcrypt comparison. -/
theorem verifyOtpHash_self (otp : String) :
    verifyOtpHash otp (hashOtp otp) = true := by
  simp [verifyOtpHash]

/-- A correct (code, context, session) triple passes HMAC verification
against the tag stored for it. -/
theorem verifyHmac_self (s otp ctx sid : String) :
    verifyHmac s otp ctx sid (createHmac s otp ctx sid) = true :=
  ctEq_self _

/-- Identical metadata is never a mismatch. -/
theorem checkMetaMismatch_self (m : RequestMeta) :
    checkMetaMismatch m m = false := by
  cases hd : m.deviceId <;> cases hp : m.platform <;>
    simp [checkMetaMismatch, hd, hp]

theorem findOtp_append (email ctx sid ch : String) (l1 l2 : List OtpRecord) :
    findOtp email ctx sid ch (l1 ++ l2) =
      (findOtp email ctx sid ch l1).or (findOtp email ctx sid ch l2) :=
  List.find?_append

theorem findOtp_eq_none_of_sessionId_ne (email ctx sid ch : String)
    (l : List OtpRecord) (h : ∀ r ∈ l, ¬ r.sessionId = sid) :
    findOtp email ctx sid ch l = none := by
  apply List.find?_eq_none.2
  intro r hr
  simp only [decide_eq_true_eq, not_and]
  intro _ _ hsid
  exact absurd hsid (h r hr)

theorem updateOtp_append_left (i : String) (f : OtpRecord → OtpRecord)
    (l1 l2 : List OtpRecord) (h : ∀ r ∈ l1, ¬ r.id = i) :
    updateOtp i f (l1 ++ l2) = l1 ++ updateOtp i f l2 := by
  induction l1 with
  | nil => rfl
  | cons r rs ih =>
      have hr : ¬ r.id = i := h r (by simp)
      simp [updateOtp, hr, ih fun x hx => h x (by simp [hx])]

theorem createOtpStore_eq_append (rec : OtpRecord) (l : List OtpRecord)
    (h : ∀ r ∈ l, ¬ r.id = rec.id) : createOtpStore rec l = l ++ [rec] := by
  induction l with
  | nil => rfl
  | cons r rs ih =>
      have hr : ¬ r.id = rec.id := h r (by simp)
      simp [createOtpStore, hr, ih fun x hx => h x (by simp [hx])]

theorem deleteOtp_append (i : String) (l1 l2 : List OtpRecord) :
    deleteOtp i (l1 ++ l2) = deleteOtp i l1 ++ deleteOtp i l2 :=
  List.filter_append _ _

theorem deleteOtp_eq_self (i : String) :
    ∀ (l : List OtpRecord), (∀ r ∈ l, ¬ r.id = i) → deleteOtp i l = l
  | [], _ => rfl
  | r :: rs, h => by
      have hr : ¬ r.id = i := h r (by simp)
      have ih := deleteOtp_eq_self i rs fun x hx => h x (by simp [hx])
      simp [deleteOtp, List.filter_cons, hr] at ih ⊢
      exact ih

theorem mem_of_mem_updateOtp (i : String) (f : OtpRecord → OtpRecord)
    (l : List OtpRecord) (r' : OtpRecord) (h : r' ∈ updateOtp i f l) :
    r' ∈ l ∨ ∃ r ∈ l, r.id = i ∧ r' = f r := by
  induction l with
  | nil => simp [updateOtp] at h
  | cons r rs ih =>
      by_cases hr : r.id = i
      · simp [updateOtp, hr] at h
        rcases h with h | h
        · exact Or.inr ⟨r, by simp, hr, h⟩
        · exact Or.inl (by simp [h])
      · simp [updateOtp, hr] at h
        rcases h with h | h
        · exact Or.inl (by simp [h])
        · rcases ih h with h' | ⟨x, hx, hxi, hxf⟩
          · exact Or.inl (by simp [h'])
          · exact Or.inr ⟨x, by simp [hx], hxi, hxf⟩

theorem mem_of_mem_cleanupConflicting (email ctx ch : String)
    (l : List OtpRecord) (r : OtpRecord)
    (h : r ∈ cleanupConflictingOtps email ctx ch l) : r ∈ l := by
  unfold cleanupConflictingOtps at h
  rcases hms : l.filter (fun o =>
      decide (o.email = email ∧ o.context = ctx ∧ o.channel = ch)) with
    _ | ⟨m, rest⟩
  · rw [hms] at h; exact h
  · rcases rest with _ | ⟨m2, rest2⟩
    · rw [hms] at h; exact h
    · rw [hms] at h
      exact List.mem_of_mem_filter h

/-- Every record surviving `reconcileActive` has the id and session id of
some record of the original store (records are kept, marked used in place,
or deleted — never re-keyed). -/
theorem mem_reconcileFound (email ctx : String) (now : Nat)
    (l : List OtpRecord) (r' : OtpRecord)
    (h : r' ∈ (reconcileFound email ctx now l).1) :
    ∃ r ∈ l, r'.id = r.id ∧ r'.sessionId = r.sessionId := by
  unfold reconcileFound at h
  rcases hact : findActiveOtp email ctx "email" now l with _ | ⟨ex⟩ <;>
    rw [hact] at h
  · exact ⟨r', h, rfl, rfl⟩
  · by_cases hany : l.any fun r => decide (r.id = ex.id)
    · simp only [hany, if_true] at h
      rcases mem_of_mem_updateOtp _ _ _ _ h with h' | ⟨x, hx, _, hxf⟩
      · exact ⟨r', h', rfl, rfl⟩
      · exact ⟨x, hx, by simp [hxf], by simp [hxf]⟩
    · simp only [hany, Bool.false_eq_true, if_false] at h
      exact ⟨r', List.mem_of_mem_filter h, rfl, rfl⟩

theorem mem_reconcileActive (email ctx : String) (now : Nat)
    (l : List OtpRecord) (r' : OtpRecord)
    (h : r' ∈ (reconcileActive email ctx now l).1) :
    ∃ r ∈ l, r'.id = r.id ∧ r'.sessionId = r.sessionId := by
  rcases mem_reconcileFound email ctx now _ r' h with ⟨x, hx, hid, hsid⟩
  exact ⟨x, mem_of_mem_cleanupConflicting _ _ _ _ _ hx, hid, hsid⟩

theorem lget_cons (k1 : String) (v1 : RateLimitEntry) (ps : Limits)
    (k : String) :
    lget ((k1, v1) :: ps) k = if k1 = k then some v1 else lget ps k := by
  by_cases h : k1 = k <;> simp [lget, List.find?, h]

theorem ldel_cons (k1 : String) (v1 : RateLimitEntry) (ps : Limits)
    (k : String) :
    ldel ((k1, v1) :: ps) k =
      if k1 = k then ldel ps k else (k1, v1) :: ldel ps k := by
  by_cases h : k1 = k <;> simp [ldel, List.filter_cons, h]

theorem lget_lset_self : ∀ (m : Limits) (k : String) (v : RateLimitEntry),
    lget (lset m k v) k = some v
  | [], k, v => by simp [lset, lget, List.find?]
  | (k1, v1) :: ps, k, v => by
      by_cases hp : k1 = k
      · simp [lset, hp, lget_cons]
      · simp [lset, hp, lget_cons, lget_lset_self ps k v]

theorem lget_lset_ne : ∀ (m : Limits) (k k' : String) (v : RateLimitEntry),
    ¬ k' = k → lget (lset m k v) k' = lget m k'
  | [], k, k', v, h => by
      have hk : ¬ k = k' := fun hh => h hh.symm
      simp [lset, lget_cons, hk, lget, List.find?]
  | (k1, v1) :: ps, k, k', v, h => by
      by_cases hp : k1 = k
      · have hk : ¬ k = k' := fun hh => h hh.symm
        simp [lset, hp, lget_cons, hk]
      · simp [lset, hp, lget_cons, lget_lset_ne ps k k' v h]

theorem lget_ldel_self : ∀ (m : Limits) (k : String), lget (ldel m k) k = none
  | [], _ => rfl
  | (k1, v1) :: ps, k => by
      by_cases hp : k1 = k
      · simp [ldel_cons, hp, lget_ldel_self ps k]
      · simp [ldel_cons, hp, lget_cons, lget_ldel_self ps k]

theorem lget_ldel_ne : ∀ (m : Limits) (k k' : String), ¬ k' = k →
    lget (ldel m k) k' = lget m k'
  | [], _, _, _ => rfl
  | (k1, v1) :: ps, k, k', h => by
      by_cases hp : k1 = k
      · have hk : ¬ k = k' := fun hh => h hh.symm
        simp [ldel_cons, hp, lget_cons, hk, lget_ldel_ne ps k k' h]
      · simp [ldel_cons, hp, lget_cons, lget_ldel_ne ps k k' h]

/-- The rate-limit key `generate` uses: per email, not per email+context. -/
abbrev rlKey (email : String) : String := "otp:" ++ email ++ ":email"

/-- Shape of a successful `generate` run: rate-limit counter bumped, store
reconciled, the new record appended, the notifier given one message. -/
theorem generate_ok_shape (cfg : OtpConfig) (secret email ctx : String)
    (meta : RequestMeta) (now : Nat) (sid recId otp : String)
    (st : EngineState) (he : ¬ email = "") (hc : ¬ ctx = "")
    (hcan : (checkLimit st.limits now (rlKey email) cfg.maxPerWindow).1 = true)
    (hid : ∀ r ∈ st.store, ¬ r.id = recId) :
    generate cfg secret true email ctx meta now sid recId otp st =
      (.ok { sessionId := sid, expiresAt := now + cfg.expiryMs,
             isResent := (reconcileActive email ctx now st.store).2,
             otp := if cfg.strictMode then none else some otp },
       { store := (reconcileActive email ctx now st.store).1 ++
           [newOtpRecord cfg secret email ctx sid recId otp meta now],
         limits := increment
           (checkLimit st.limits now (rlKey email) cfg.maxPerWindow).2 now
           (rlKey email) cfg.windowMs,
         outbox := st.outbox ++ [⟨email, some otp⟩] }) := by
  have hfresh : ∀ r ∈ (reconcileActive email ctx now st.store).1,
      ¬ r.id = (newOtpRecord cfg secret email ctx sid recId otp meta now).id := by
    intro r hr
    rcases mem_reconcileActive email ctx now _ r hr with ⟨x, hx, hid', _⟩
    rw [newOtpRecord, hid']
    exact hid x hx
  unfold generate
  rw [if_neg (by simp [he, hc])]
  simp only [rlKey] at hcan
  simp only [hcan, Bool.true_eq_false, if_false, if_true]
  rw [createOtpStore_eq_append _ _ hfresh]
  rfl

/-- Shape of a `generate` run whose notifier send fails: the freshly created
record is rolled back, the counter bump persists, nothing reaches the
outbox, and the call surfaces `EMAIL_SEND_FAILED`. -/
theorem generate_sendFail_shape (cfg : OtpConfig) (secret email ctx : String)
    (meta : RequestMeta) (now : Nat) (sid recId otp : String)
    (st : EngineState) (he : ¬ email = "") (hc : ¬ ctx = "")
    (hcan : (checkLimit st.limits now (rlKey email) cfg.maxPerWindow).1 = true)
    (hid : ∀ r ∈ st.store, ¬ r.id = recId) :
    generate cfg secret false email ctx meta now sid recId otp st =
      (.error .EMAIL_SEND_FAILED,
       { store := (reconcileActive email ctx now st.store).1,
         limits := increment
           (checkLimit st.limits now (rlKey email) cfg.maxPerWindow).2 now
           (rlKey email) cfg.windowMs,
         outbox := st.outbox }) := by
  have hfresh : ∀ r ∈ (reconcileActive email ctx now st.store).1,
      ¬ r.id = (newOtpRecord cfg secret email ctx sid recId otp meta now).id := by
    intro r hr
    rcases mem_reconcileActive email ctx now _ r hr with ⟨x, hx, hid', _⟩
    rw [newOtpRecord, hid']
    exact hid x hx
  unfold generate
  rw [if_neg (by simp [he, hc])]
  simp only [rlKey] at hcan
  simp only [hcan, Bool.true_eq_false, Bool.false_eq_true, if_false]
  rw [createOtpStore_eq_append _ _ hfresh, deleteOtp_append,
    deleteOtp_eq_self _ _ hfresh]
  have hone : deleteOtp
      (newOtpRecord cfg secret email ctx sid recId otp meta now).id
      [newOtpRecord cfg secret email ctx sid recId otp meta now] = [] := by
    simp [deleteOtp, List.filter_cons]
  rw [hone, List.append_nil]

/-- `verify` on a record whose `used` flag is set fails with `ALREADY_USED`
and changes nothing, no matter what code is submitted. -/
theorem verify_used_fails (cfg : OtpConfig) (secret email ch ctx sid : String)
    (meta : RequestMeta) (now : Nat) (st : EngineState) (r : OtpRecord)
    (he : ¬ email = "") (hch : ¬ ch = "") (hc : ¬ ctx = "") (hs : ¬ sid = "")
    (hfind : findOtp email ctx sid "email" st.store = some r)
    (hused : r.isUsed = true) :
    verify cfg secret email ch ctx sid meta now st =
      (.error .ALREADY_USED, st) := by
  unfold verify
  rw [if_neg (by simp [he, hch, hc, hs])]
  simp only [hfind, hused, if_true]

/-- `verify` against a store whose last record is the one freshly written by
`generate` (no earlier record carries its session id) succeeds with the
correct code and non-mismatching metadata, and marks exactly that record
used. -/
theorem verify_fresh_ok (cfg : OtpConfig)
    (secret email ctx sid recId otp : String) (meta meta' : RequestMeta)
    (now0 now' : Nat) (pre : List OtpRecord) (L : Limits)
    (OB : List SentEmail) (he : ¬ email = "") (hc : ¬ ctx = "")
    (ho : ¬ otp = "") (hs : ¬ sid = "")
    (hpre : ∀ r ∈ pre, ¬ r.sessionId = sid)
    (hpreid : ∀ r ∈ pre, ¬ r.id = recId)
    (hnotexp : ¬ (now0 + cfg.expiryMs < now'))
    (hmeta : checkMetaMismatch meta meta' = false) :
    verify cfg secret email otp ctx sid meta' now'
      ⟨pre ++ [newOtpRecord cfg secret email ctx sid recId otp meta now0],
       L, OB⟩ =
      (.ok { success := true, sessionId := sid, email := email,
             context := ctx, channel := "email" },
       ⟨pre ++ [{ newOtpRecord cfg secret email ctx sid recId otp meta now0
                  with isUsed := true, updatedAt := now' }], L, OB⟩) := by
  have hfind : findOtp email ctx sid "email"
      (pre ++ [newOtpRecord cfg secret email ctx sid recId otp meta now0]) =
      some (newOtpRecord cfg secret email ctx sid recId otp meta now0) := by
    rw [findOtp_append, findOtp_eq_none_of_sessionId_ne _ _ _ _ _ hpre]
    simp [findOtp, List.find?, newOtpRecord]
  have hupd : ∀ (f : OtpRecord → OtpRecord),
      updateOtp recId f
        (pre ++ [newOtpRecord cfg secret email ctx sid recId otp meta now0]) =
        pre ++ [f (newOtpRecord cfg secret email ctx sid recId otp meta now0)] := by
    intro f
    rw [updateOtp_append_left _ _ _ _ hpreid]
    simp [updateOtp, newOtpRecord]
  unfold verify
  rw [if_neg (by simp [he, ho, hc, hs])]
  simp only [hfind]
  simp [newOtpRecord, verifyOtpHash_self, verifyHmac_self, hnotexp, hmeta,
    hupd]
  simp only [newOtpRecord] at hupd
  simp [hupd]

/-! ### Concrete fixtures used by witnesses and counterexamples -/

/-- An empty world: no records, no rate-limit entries, no sent mail. -/
def emptyState : EngineState := ⟨[], [], []⟩

/-- A sample request context. -/
def exMeta : RequestMeta :=
  { ip := "203.0.113.7", userAgent := "Mozilla/5.0" }

/-- The same client fingerprint except for the originating address. -/
def exMetaOtherIp : RequestMeta :=
  { ip := "198.51.100.9", userAgent := "Mozilla/5.0" }

/-! ### C1 -/

/-- C1: for valid inputs (with a fresh session id and record id, as the
random draws are), a successful `issue()` followed by `verify()` with the
correct code, the returned session id and the same metadata succeeds; an
immediate second `verify()` with the very same correct data fails with
`ALREADY_USED`; and in general any record whose `used` flag is set can
never verify again — always `ALREADY_USED`, even with the correct code. -/
theorem C1_issue_verify_exactly_once (cfg : OtpConfig)
    (secret email ctx otp sid recId : String) (meta : RequestMeta)
    (now : Nat) (st : EngineState)
    (he : ¬ email = "") (hc : ¬ ctx = "") (ho : ¬ otp = "") (hs : ¬ sid = "")
    (hcan : (checkLimit st.limits now (rlKey email) cfg.maxPerWindow).1 = true)
    (hsid : ∀ r ∈ st.store, ¬ r.sessionId = sid)
    (hid : ∀ r ∈ st.store, ¬ r.id = recId) :
    (generate cfg secret true email ctx meta now sid recId otp st).1 =
      .ok { sessionId := sid, expiresAt := now + cfg.expiryMs,
            isResent := (reconcileActive email ctx now st.store).2,
            otp := if cfg.strictMode then none else some otp } ∧
    (verify cfg secret email otp ctx sid meta now
      (generate cfg secret true email ctx meta now sid recId otp st).2).1 =
      .ok { success := true, sessionId := sid, email := email,
            context := ctx, channel := "email" } ∧
    (verify cfg secret email otp ctx sid meta now
      (verify cfg secret email otp ctx sid meta now
        (generate cfg secret true email ctx meta now sid recId otp st).2).2).1 =
      .error .ALREADY_USED ∧
    ∀ (st' : EngineState) (r : OtpRecord) (ch : String) (meta' : RequestMeta)
      (now' : Nat), ¬ ch = "" →
      findOtp email ctx sid "email" st'.store = some r → r.isUsed = true →
      (verify cfg secret email ch ctx sid meta' now' st').1 =
        .error .ALREADY_USED := by
  have hshape := generate_ok_shape cfg secret email ctx meta now sid recId
    otp st he hc hcan hid
  have hpre_sid : ∀ r ∈ (reconcileActive email ctx now st.store).1,
      ¬ r.sessionId = sid := by
    intro r hr
    rcases mem_reconcileActive email ctx now _ r hr with ⟨x, hx, _, h2⟩
    rw [h2]; exact hsid x hx
  have hpre_id : ∀ r ∈ (reconcileActive email ctx now st.store).1,
      ¬ r.id = recId := by
    intro r hr
    rcases mem_reconcileActive email ctx now _ r hr with ⟨x, hx, h1, _⟩
    rw [h1]; exact hid x hx
  have hnotexp : ¬ (now + cfg.expiryMs < now) :=
    Nat.not_lt.2 (Nat.le_add_right _ _)
  have hv1 := verify_fresh_ok cfg secret email ctx sid recId otp meta meta
    now now (reconcileActive email ctx now st.store).1
    (increment (checkLimit st.limits now (rlKey email) cfg.maxPerWindow).2
      now (rlKey email) cfg.windowMs)
    (st.outbox ++ [⟨email, some otp⟩]) he hc ho hs hpre_sid hpre_id hnotexp
    (checkMetaMismatch_self meta)
  refine ⟨by rw [hshape], by rw [hshape, hv1], ?_, ?_⟩
  · rw [hshape]
    rw [hv1]
    have hfind2 : findOtp email ctx sid "email"
        ((reconcileActive email ctx now st.store).1 ++
          [{ newOtpRecord cfg secret email ctx sid recId otp meta now with
             isUsed := true, updatedAt := now }]) =
        some { newOtpRecord cfg secret email ctx sid recId otp meta now with
               isUsed := true, updatedAt := now } := by
      rw [findOtp_append, findOtp_eq_none_of_sessionId_ne _ _ _ _ _ hpre_sid]
      simp [findOtp, List.find?, newOtpRecord]
    rw [verify_used_fails cfg secret email otp ctx sid meta now _ _ he ho hc
      hs hfind2 (by simp [newOtpRecord])]
  · intro st' r ch meta' now' hch hfind hused
    rw [verify_used_fails cfg secret email ch ctx sid meta' now' st' r he
      hch hc hs hfind hused]

/-- Witness for C1 at concrete inputs: the verify-after-issue conjunct. -/
theorem C1_issue_verify_exactly_once_witness :
    (verify {} "server-secret" "user@example.com" "123456" "login" "sid-1"
      exMeta 1000
      (generate {} "server-secret" true "user@example.com" "login" exMeta
        1000 "sid-1" "rec-1" "123456" emptyState).2).1 =
      .ok { success := true, sessionId := "sid-1",
            email := "user@example.com", context := "login",
            channel := "email" } :=
  (C1_issue_verify_exactly_once {} "server-secret" "user@example.com"
    "login" "123456" "sid-1" "rec-1" exMeta 1000 emptyState (by decide)
    (by decide) (by decide) (by decide) (by decide) (by simp [emptyState])
    (by simp [emptyState])).2.1

/-! ### C5 -/

/-- C5: when the notifier's send fails during `issue()`, the record created
in that call is rolled back — the post-state store is exactly the
reconciled pre-store, no record carries the generated session id — nothing
reaches the outbox, and the call fails with `EMAIL_SEND_FAILED`; since the
call throws, neither the plaintext code nor the session id is returned. -/
theorem C5_send_failure_rolls_back (cfg : OtpConfig)
    (secret email ctx otp sid recId : String) (meta : RequestMeta)
    (now : Nat) (st : EngineState)
    (he : ¬ email = "") (hc : ¬ ctx = "")
    (hcan : (checkLimit st.limits now (rlKey email) cfg.maxPerWindow).1 = true)
    (hsid : ∀ r ∈ st.store, ¬ r.sessionId = sid)
    (hid : ∀ r ∈ st.store, ¬ r.id = recId) :
    (generate cfg secret false email ctx meta now sid recId otp st).1 =
      .error .EMAIL_SEND_FAILED ∧
    (generate cfg secret false email ctx meta now sid recId otp st).2.store =
      (reconcileActive email ctx now st.store).1 ∧
    (∀ r ∈ (generate cfg secret false email ctx meta now sid recId otp
        st).2.store, ¬ r.sessionId = sid) ∧
    (generate cfg secret false email ctx meta now sid recId otp st).2.outbox =
      st.outbox := by
  have hshape := generate_sendFail_shape cfg secret email ctx meta now sid
    recId otp st he hc hcan hid
  refine ⟨by rw [hshape], by rw [hshape], ?_, by rw [hshape]⟩
  rw [hshape]
  intro r hr
  rcases mem_reconcileActive email ctx now _ r hr with ⟨x, hx, _, h2⟩
  rw [h2]; exact hsid x hx

/-- Witness for C5 at concrete inputs. -/
theorem C5_send_failure_rolls_back_witness :
    (generate {} "server-secret" false "user@example.com" "login" exMeta
      1000 "sid-1" "rec-1" "123456" emptyState).1 =
      .error .EMAIL_SEND_FAILED ∧
    (generate {} "server-secret" false "user@example.com" "login" exMeta
      1000 "sid-1" "rec-1" "123456" emptyState).2.store =
      (reconcileActive "user@example.com" "login" 1000 emptyState.store).1 :=
  ⟨(C5_send_failure_rolls_back {} "server-secret" "user@example.com" "login"
      "123456" "sid-1" "rec-1" exMeta 1000 emptyState (by decide) (by decide)
      (by decide) (by simp [emptyState]) (by simp [emptyState])).1,
   (C5_send_failure_rolls_back {} "server-secret" "user@example.com" "login"
      "123456" "sid-1" "rec-1" exMeta 1000 emptyState (by decide) (by decide)
      (by decide) (by simp [emptyState]) (by simp [emptyState])).2.1⟩

/-! ### C10 -/

/-- C10: whenever `issue()` returns a result, that result carries the
plaintext code in its `otp` field exactly when `strictMode` is false, and
omits it (`none`) when `strictMode` is true. -/
theorem C10_otp_field_iff_nonstrict (cfg : OtpConfig)
    (secret : String) (sendOk : Bool) (email ctx : String)
    (meta : RequestMeta) (now : Nat) (sid recId otp : String)
    (st : EngineState) (res : OtpGenerationResult)
    (h : (generate cfg secret sendOk email ctx meta now sid recId otp st).1 =
      .ok res) :
    res.otp = if cfg.strictMode then none else some otp := by
  simp only [generate] at h
  split at h
  · simp at h
  · split at h
    · simp at h
    · split at h
      · rw [Except.ok.injEq] at h
        rw [← h]
      · simp at h

/-- Witness for C10: with default (strict) configuration the result omits
the code. -/
theorem C10_otp_field_iff_nonstrict_witness :
    ({ sessionId := "sid-1", expiresAt := 121000, isResent := false,
       otp := none } : OtpGenerationResult).otp =
      if ({} : OtpConfig).strictMode then none else some "123456" :=
  C10_otp_field_iff_nonstrict {} "server-secret" true "user@example.com"
    "login" exMeta 1000 "sid-1" "rec-1" "123456" emptyState
    { sessionId := "sid-1", expiresAt := 121000, isResent := false,
      otp := none } (by rfl)

/-! ### C6 -/

theorem checkLimit_of_lget_none (m : Limits) (now : Nat) (key : String)
    (limit : Nat) (h : lget m key = none) :
    checkLimit m now key limit = (true, m) := by
  simp [checkLimit, h]

theorem checkLimit_of_live (m : Limits) (now : Nat) (key : String)
    (limit : Nat) (e : RateLimitEntry) (h : lget m key = some e)
    (hlive : ¬ e.resetTime < now) :
    checkLimit m now key limit = (decide (e.count < limit), m) := by
  simp [checkLimit, h, hlive]

theorem checkLimit_of_expired (m : Limits) (now : Nat) (key : String)
    (limit : Nat) (e : RateLimitEntry) (h : lget m key = some e)
    (hexp : e.resetTime < now) :
    checkLimit m now key limit = (true, ldel m key) := by
  simp [checkLimit, h, hexp]

theorem increment_of_lget_none (m : Limits) (now : Nat) (key : String)
    (w : Nat) (h : lget m key = none) :
    increment m now key w = lset m key ⟨1, now + w⟩ := by
  simp [increment, h]

theorem increment_of_live (m : Limits) (now : Nat) (key : String) (w : Nat)
    (e : RateLimitEntry) (h : lget m key = some e)
    (hlive : ¬ e.resetTime < now) :
    increment m now key w = lset m key ⟨e.count + 1, e.resetTime⟩ := by
  simp [increment, h, hlive]

theorem lset_lset : ∀ (m : Limits) (k : String) (v v' : RateLimitEntry),
    lset (lset m k v) k v' = lset m k v'
  | [], k, v, v' => by simp [lset]
  | (k1, w) :: ps, k, v, v' => by
      by_cases hp : k1 = k
      · simp [lset, hp]
      · simp [lset, hp, lset_lset ps k v v']

/-- When the governor refuses (and the entry is live, so the check leaves
the map alone), `generate` throws `RATE_LIMITED` before touching
anything. -/
theorem generate_rateLimited (cfg : OtpConfig) (secret : String)
    (sendOk : Bool) (email ctx : String) (meta : RequestMeta) (now : Nat)
    (sid recId otp : String) (st : EngineState)
    (he : ¬ email = "") (hc : ¬ ctx = "")
    (hchk : checkLimit st.limits now (rlKey email) cfg.maxPerWindow =
      (false, st.limits)) :
    generate cfg secret sendOk email ctx meta now sid recId otp st =
      (.error .RATE_LIMITED, st) := by
  unfold generate
  rw [if_neg (by simp [he, hc])]
  simp only [rlKey] at hchk
  simp only [hchk]
  simp

/-- Ids absent from a store stay absent through a `generate`-shaped store
update, as long as the appended record's own id differs. -/
theorem fresh_id_append_new (l : List OtpRecord) (newRec : OtpRecord)
    (email ctx : String) (now : Nat) (j : String) (hnew : ¬ newRec.id = j)
    (hall : ∀ r ∈ l, ¬ r.id = j) :
    ∀ r ∈ (reconcileActive email ctx now l).1 ++ [newRec], ¬ r.id = j := by
  intro r hr
  rcases List.mem_append.1 hr with hr | hr
  · rcases mem_reconcileActive email ctx now _ r hr with ⟨x, hx, h1, _⟩
    rw [h1]; exact hall x hx
  · simp only [List.mem_singleton] at hr
    rw [hr]; exact hnew

/-- C6: with `maxPerWindow = 3`, four sequential `issue()` calls for the
same destination at the same instant succeed three times; the fourth fails
with `RateLimited` leaving the whole state untouched (no record created);
after the window elapses issuance succeeds again; and a call whose email
delivery fails still increments the counter (the increment happens before
delivery, so the attempt counts against the quota). -/
theorem C6_rate_limited_after_three (cfg : OtpConfig)
    (secret email ctx : String) (meta : RequestMeta) (now now' : Nat)
    (o1 o2 o3 o4 o5 s1 s2 s3 s4 s5 i1 i2 i3 i4 i5 : String)
    (st0 : EngineState) (he : ¬ email = "") (hc : ¬ ctx = "")
    (hmax : cfg.maxPerWindow = 3)
    (hkey : lget st0.limits (rlKey email) = none)
    (hfresh : ∀ r ∈ st0.store,
      ¬ r.id = i1 ∧ ¬ r.id = i2 ∧ ¬ r.id = i3 ∧ ¬ r.id = i5)
    (h21 : ¬ i1 = i2) (h31 : ¬ i1 = i3) (h32 : ¬ i2 = i3)
    (h51 : ¬ i1 = i5) (h52 : ¬ i2 = i5) (h53 : ¬ i3 = i5)
    (hwin : now + cfg.windowMs < now') :
    (∃ r, (generate cfg secret true email ctx meta now s1 i1 o1 st0).1 =
      .ok r) ∧
    (∃ r, (generate cfg secret true email ctx meta now s2 i2 o2
      (generate cfg secret true email ctx meta now s1 i1 o1 st0).2).1 =
      .ok r) ∧
    (∃ r, (generate cfg secret true email ctx meta now s3 i3 o3
      (generate cfg secret true email ctx meta now s2 i2 o2
        (generate cfg secret true email ctx meta now s1 i1 o1 st0).2).2).1 =
      .ok r) ∧
    generate cfg secret true email ctx meta now s4 i4 o4
      (generate cfg secret true email ctx meta now s3 i3 o3
        (generate cfg secret true email ctx meta now s2 i2 o2
          (generate cfg secret true email ctx meta now s1 i1 o1
            st0).2).2).2 =
      (.error .RATE_LIMITED,
       (generate cfg secret true email ctx meta now s3 i3 o3
         (generate cfg secret true email ctx meta now s2 i2 o2
           (generate cfg secret true email ctx meta now s1 i1 o1
             st0).2).2).2) ∧
    (∃ r, (generate cfg secret true email ctx meta now' s5 i5 o5
      (generate cfg secret true email ctx meta now s3 i3 o3
        (generate cfg secret true email ctx meta now s2 i2 o2
          (generate cfg secret true email ctx meta now s1 i1 o1
            st0).2).2).2).1 = .ok r) ∧
    (generate cfg secret false email ctx meta now s1 i1 o1 st0).1 =
      .error .EMAIL_SEND_FAILED ∧
    (generate cfg secret false email ctx meta now s1 i1 o1 st0).2.limits =
      lset st0.limits (rlKey email) ⟨1, now + cfg.windowMs⟩ := by
  have hnl : ∀ w, ¬ now + w < now := fun w => Nat.not_lt.2 (Nat.le_add_right _ _)
  have hchk0 : checkLimit st0.limits now (rlKey email) cfg.maxPerWindow =
      (true, st0.limits) := checkLimit_of_lget_none _ _ _ _ hkey
  have hg1 := generate_ok_shape cfg secret email ctx meta now s1 i1 o1 st0
    he hc (by rw [hchk0]) (fun r hr => (hfresh r hr).1)
  have hL1 : (generate cfg secret true email ctx meta now s1 i1 o1
      st0).2.limits = lset st0.limits (rlKey email) ⟨1, now + cfg.windowMs⟩ := by
    rw [hg1, hchk0, increment_of_lget_none _ _ _ _ hkey]
  have hF1 : ∀ j, ¬ i1 = j → (∀ r ∈ st0.store, ¬ r.id = j) →
      ∀ r ∈ (generate cfg secret true email ctx meta now s1 i1 o1
        st0).2.store, ¬ r.id = j := by
    intro j hj hall
    rw [hg1]
    exact fresh_id_append_new _ _ _ _ _ _ (by rw [newOtpRecord]; exact hj) hall
  have hchk1 : checkLimit (generate cfg secret true email ctx meta now s1 i1
      o1 st0).2.limits now (rlKey email) cfg.maxPerWindow =
      (true, (generate cfg secret true email ctx meta now s1 i1 o1
        st0).2.limits) := by
    rw [hL1, checkLimit_of_live _ _ _ _ ⟨1, now + cfg.windowMs⟩
      (lget_lset_self _ _ _) (hnl _), hmax]
    simp
  have hg2 := generate_ok_shape cfg secret email ctx meta now s2 i2 o2
    (generate cfg secret true email ctx meta now s1 i1 o1 st0).2 he hc
    (by rw [hchk1])
    (hF1 i2 h21 fun r hr => (hfresh r hr).2.1)
  have hL2 : (generate cfg secret true email ctx meta now s2 i2 o2
      (generate cfg secret true email ctx meta now s1 i1 o1 st0).2).2.limits =
      lset st0.limits (rlKey email) ⟨2, now + cfg.windowMs⟩ := by
    rw [hg2]
    rw [hchk1, hL1, increment_of_live _ _ _ _ ⟨1, now + cfg.windowMs⟩
      (lget_lset_self _ _ _) (hnl _), lset_lset]
  have hF2 : ∀ j, ¬ i2 = j → (∀ r ∈ st0.store, ¬ r.id = j) → ¬ i1 = j →
      ∀ r ∈ (generate cfg secret true email ctx meta now s2 i2 o2
        (generate cfg secret true email ctx meta now s1 i1 o1
          st0).2).2.store, ¬ r.id = j := by
    intro j hj hall hj1
    rw [hg2]
    exact fresh_id_append_new _ _ _ _ _ _ (by rw [newOtpRecord]; exact hj)
      (hF1 j hj1 hall)
  have hchk2 : checkLimit (generate cfg secret true email ctx meta now s2 i2
      o2 (generate cfg secret true email ctx meta now s1 i1 o1
        st0).2).2.limits now (rlKey email) cfg.maxPerWindow =
      (true, (generate cfg secret true email ctx meta now s2 i2 o2
        (generate cfg secret true email ctx meta now s1 i1 o1
          st0).2).2.limits) := by
    rw [hL2, checkLimit_of_live _ _ _ _ ⟨2, now + cfg.windowMs⟩
      (lget_lset_self _ _ _) (hnl _), hmax]
    simp
  have hg3 := generate_ok_shape cfg secret email ctx meta now s3 i3 o3
    (generate cfg secret true email ctx meta now s2 i2 o2
      (generate cfg secret true email ctx meta now s1 i1 o1 st0).2).2 he hc
    (by rw [hchk2])
    (hF2 i3 h32 (fun r hr => (hfresh r hr).2.2.1) h31)
  have hL3 : (generate cfg secret true email ctx meta now s3 i3 o3
      (generate cfg secret true email ctx meta now s2 i2 o2
        (generate cfg secret true email ctx meta now s1 i1 o1
          st0).2).2).2.limits =
      lset st0.limits (rlKey email) ⟨3, now + cfg.windowMs⟩ := by
    rw [hg3]
    rw [hchk2, hL2, increment_of_live _ _ _ _ ⟨2, now + cfg.windowMs⟩
      (lget_lset_self _ _ _) (hnl _), lset_lset]
  have hchk3 : checkLimit (generate cfg secret true email ctx meta now s3 i3
      o3 (generate cfg secret true email ctx meta now s2 i2 o2
        (generate cfg secret true email ctx meta now s1 i1 o1
          st0).2).2).2.limits now (rlKey email) cfg.maxPerWindow =
      (false, (generate cfg secret true email ctx meta now s3 i3 o3
        (generate cfg secret true email ctx meta now s2 i2 o2
          (generate cfg secret true email ctx meta now s1 i1 o1
            st0).2).2).2.limits) := by
    rw [hL3, checkLimit_of_live _ _ _ _ ⟨3, now + cfg.windowMs⟩
      (lget_lset_self _ _ _) (hnl _), hmax]
    simp
  have hchk5 : checkLimit (generate cfg secret true email ctx meta now s3 i3
      o3 (generate cfg secret true email ctx meta now s2 i2 o2
        (generate cfg secret true email ctx meta now s1 i1 o1
          st0).2).2).2.limits now' (rlKey email) cfg.maxPerWindow =
      (true, ldel (generate cfg secret true email ctx meta now s3 i3 o3
        (generate cfg secret true email ctx meta now s2 i2 o2
          (generate cfg secret true email ctx meta now s1 i1 o1
            st0).2).2).2.limits (rlKey email)) := by
    rw [hL3, checkLimit_of_expired _ _ _ _ ⟨3, now + cfg.windowMs⟩
      (lget_lset_self _ _ _) hwin]
  have hF3 : ∀ j, ¬ i3 = j → (∀ r ∈ st0.store, ¬ r.id = j) → ¬ i1 = j →
      ¬ i2 = j →
      ∀ r ∈ (generate cfg secret true email ctx meta now s3 i3 o3
        (generate cfg secret true email ctx meta now s2 i2 o2
          (generate cfg secret true email ctx meta now s1 i1 o1
            st0).2).2).2.store, ¬ r.id = j := by
    intro j hj hall hj1 hj2
    rw [hg3]
    exact fresh_id_append_new _ _ _ _ _ _ (by rw [newOtpRecord]; exact hj)
      (hF2 j hj2 hall hj1)
  have hg5 := generate_ok_shape cfg secret email ctx meta now' s5 i5 o5
    (generate cfg secret true email ctx meta now s3 i3 o3
      (generate cfg secret true email ctx meta now s2 i2 o2
        (generate cfg secret true email ctx meta now s1 i1 o1 st0).2).2).2
    he hc (by rw [hchk5])
    (hF3 i5 h53 (fun r hr => (hfresh r hr).2.2.2) h51 h52)
  have hgf := generate_sendFail_shape cfg secret email ctx meta now s1 i1 o1
    st0 he hc (by rw [hchk0]) (fun r hr => (hfresh r hr).1)
  refine ⟨⟨_, by rw [hg1]⟩, ⟨_, by rw [hg2]⟩, ⟨_, by rw [hg3]⟩,
    generate_rateLimited cfg secret true email ctx meta now s4 i4 o4 _ he hc
      hchk3,
    ⟨_, by rw [hg5]⟩, by rw [hgf], ?_⟩
  · rw [hgf]
    rw [hchk0, increment_of_lget_none _ _ _ _ hkey]

/-- Witness for C6 at concrete inputs: the fourth issuance in the window is
refused with `RATE_LIMITED` and leaves the state of the third untouched. -/
theorem C6_rate_limited_after_three_witness :
    generate {} "server-secret" true "user@example.com" "login" exMeta 1000
      "s4" "a4" "444444"
      (generate {} "server-secret" true "user@example.com" "login" exMeta
        1000 "s3" "a3" "333333"
        (generate {} "server-secret" true "user@example.com" "login" exMeta
          1000 "s2" "a2" "222222"
          (generate {} "server-secret" true "user@example.com" "login"
            exMeta 1000 "s1" "a1" "111111" emptyState).2).2).2 =
      (.error .RATE_LIMITED,
       (generate {} "server-secret" true "user@example.com" "login" exMeta
         1000 "s3" "a3" "333333"
         (generate {} "server-secret" true "user@example.com" "login" exMeta
           1000 "s2" "a2" "222222"
           (generate {} "server-secret" true "user@example.com" "login"
             exMeta 1000 "s1" "a1" "111111" emptyState).2).2).2) :=
  (C6_rate_limited_after_three {} "server-secret" "user@example.com" "login"
    exMeta 1000 901001 "111111" "222222" "333333" "444444" "555555" "s1"
    "s2" "s3" "s4" "s5" "a1" "a2" "a3" "a4" "a5" emptyState (by decide)
    (by decide) (by decide) (by decide) (by simp [emptyState]) (by decide)
    (by decide) (by decide) (by decide) (by decide) (by decide)
    (by decide)).2.2.2.1

/-! ### C7 -/

theorem checkMetaMismatch_of_ip_ne (a b : RequestMeta)
    (h : ¬ a.ip = b.ip) : checkMetaMismatch a b = true := by
  simp [checkMetaMismatch, h]

/-- C7: in strict mode, a `verify()` whose code passes both the bcrypt and
the HMAC check but whose request metadata differs (here: another origin
address) fails with `META_MISMATCH` and changes nothing; and conversely a
`META_MISMATCH` outcome can only arise after both code checks have passed,
so a caller submitting a wrong code never observes it. -/
theorem C7_meta_mismatch_after_code_checks (cfg : OtpConfig)
    (secret email ch ctx sid : String) (meta : RequestMeta) (now : Nat)
    (st : EngineState) (r : OtpRecord)
    (he : ¬ email = "") (hch : ¬ ch = "") (hc : ¬ ctx = "") (hs : ¬ sid = "")
    (hfind : findOtp email ctx sid "email" st.store = some r) :
    (r.isUsed = false → r.isLocked = false → ¬ (r.expiresAt < now) →
      r.otpHash = hashOtp ch → r.hmac = createHmac secret ch ctx sid →
      cfg.strictMode = true → ¬ r.requestMeta.ip = meta.ip →
      verify cfg secret email ch ctx sid meta now st =
        (.error .META_MISMATCH, st)) ∧
    ((verify cfg secret email ch ctx sid meta now st).1 =
        .error .META_MISMATCH →
      verifyOtpHash ch r.otpHash = true ∧
      verifyHmac secret ch ctx sid r.hmac = true) := by
  constructor
  · intro hu hl hexp hhash hhmac hstrict hip
    unfold verify
    rw [if_neg (by simp [he, hch, hc, hs])]
    simp only [hfind]
    rw [hhash, hhmac]
    simp [hu, hl, hexp, verifyOtpHash_self, verifyHmac_self, hstrict,
      checkMetaMismatch_of_ip_ne _ _ hip]
  · intro hv
    unfold verify at hv
    rw [if_neg (by simp [he, hch, hc, hs])] at hv
    simp only [hfind] at hv
    by_cases hu : r.isUsed = true
    · simp [hu] at hv
    by_cases hl : r.isLocked = true
    · simp [hu, hl] at hv
    by_cases hexp : r.expiresAt < now
    · simp [hu, hl, hexp] at hv
    by_cases hcode : (verifyOtpHash ch r.otpHash &&
        verifyHmac secret ch ctx sid r.hmac) = false
    · simp [hu, hl, hexp, hcode] at hv
      split at hv <;> simp at hv
    · have hcode' : (verifyOtpHash ch r.otpHash &&
          verifyHmac secret ch ctx sid r.hmac) = true := by
        revert hcode
        cases verifyOtpHash ch r.otpHash &&
          verifyHmac secret ch ctx sid r.hmac <;> simp
      rw [Bool.and_eq_true] at hcode'
      exact hcode'

/-- A stored record as `generate` writes it, for concrete scenarios. -/
def exRecord : OtpRecord :=
  { id := "rec-1", email := "user@example.com", context := "login",
    sessionId := "sid-1", channel := "email",
    otpHash := hashOtp "123456",
    hmac := createHmac "server-secret" "123456" "login" "sid-1",
    expiresAt := 121000, attempts := 0, maxAttempts := 5,
    isUsed := false, isLocked := false, requestMeta := exMeta,
    createdAt := 1000, updatedAt := 1000 }

/-- A world holding exactly `exRecord`. -/
def exState : EngineState := ⟨[exRecord], [], []⟩

/-- Witness for C7 at concrete inputs: correct code, different origin
address, strict mode — `META_MISMATCH` with the state untouched. -/
theorem C7_meta_mismatch_after_code_checks_witness :
    verify {} "server-secret" "user@example.com" "123456" "login" "sid-1"
      exMetaOtherIp 1000 exState = (.error .META_MISMATCH, exState) :=
  (C7_meta_mismatch_after_code_checks {} "server-secret" "user@example.com"
    "123456" "login" "sid-1" exMetaOtherIp 1000 exState exRecord (by decide)
    (by decide) (by decide) (by decide) (by decide)).1 rfl rfl (by decide)
    rfl rfl rfl (by decide)

/-! ### C2 -/

/-- `updateOtp` rewrites exactly the first record with the given id, so an
id lookup afterwards sees the updated record. -/
theorem findById_updateOtp (i : String) (f : OtpRecord → OtpRecord)
    (hf : ∀ x, (f x).id = x.id) :
    ∀ (l : List OtpRecord),
      findById i (updateOtp i f l) = (findById i l).map f
  | [] => rfl
  | r :: rs => by
      by_cases hr : r.id = i
      · simp [updateOtp, hr, findById, List.find?, hf r]
      · simp only [updateOtp, hr, if_false, findById, List.find?,
          decide_eq_true_eq]
        simp only [findById] at findById_updateOtp
        simp [hr, findById_updateOtp i f hf rs]

/-- `findById_updateOtp` for the attempts/lock update `verify` performs. -/
theorem findById_updateOtp_fields (i : String) (a : Nat) (b : Bool)
    (u : Nat) (l : List OtpRecord) :
    findById i (updateOtp i
      (fun x => { x with attempts := a, isLocked := b, updatedAt := u }) l) =
    (findById i l).map
      (fun x => { x with attempts := a, isLocked := b, updatedAt := u }) :=
  findById_updateOtp i
    (fun x => { x with attempts := a, isLocked := b, updatedAt := u })
    (fun _ => rfl) l

/-- `findById_updateOtp` for the used-flag update `verify` performs. -/
theorem findById_updateOtp_used (i : String) (u : Nat)
    (l : List OtpRecord) :
    findById i (updateOtp i
      (fun x => { x with isUsed := true, updatedAt := u }) l) =
    (findById i l).map (fun x => { x with isUsed := true, updatedAt := u }) :=
  findById_updateOtp i (fun x => { x with isUsed := true, updatedAt := u })
    (fun _ => rfl) l

/-- C2: attempts bookkeeping.  For a record found by `verify` (at its first
position also by id) satisfying the attempts invariant
(`attempts ≤ maxAttempts`, strictly below while unlocked):
a locked record always fails with `LOCKED`, untouched, regardless of the
submitted code; a failing code check increments `attempts` by exactly one,
and when that increment reaches `maxAttempts` the record is locked and the
call fails with `ATTEMPTS_EXCEEDED`, otherwise it fails with `INVALID`
still unlocked; and on every path the record's attempts never decrease,
grow by at most one, never exceed `maxAttempts`, and the locked flag is
never cleared. -/
theorem C2_attempts_monotone_lockout (cfg : OtpConfig)
    (secret email ch ctx sid : String) (meta : RequestMeta) (now : Nat)
    (st : EngineState) (r : OtpRecord)
    (he : ¬ email = "") (hch : ¬ ch = "") (hc : ¬ ctx = "") (hs : ¬ sid = "")
    (hfind : findOtp email ctx sid "email" st.store = some r)
    (hbyid : findById r.id st.store = some r)
    (hbound : r.attempts ≤ r.maxAttempts)
    (hlockinv : r.isLocked = false → r.attempts < r.maxAttempts) :
    (r.isUsed = false → r.isLocked = true →
      verify cfg secret email ch ctx sid meta now st =
        (.error .LOCKED, st)) ∧
    (r.isUsed = false → r.isLocked = false → ¬ (r.expiresAt < now) →
      (verifyOtpHash ch r.otpHash &&
        verifyHmac secret ch ctx sid r.hmac) = false →
      ((r.attempts + 1 = r.maxAttempts →
        (verify cfg secret email ch ctx sid meta now st).1 =
          .error .ATTEMPTS_EXCEEDED ∧
        findById r.id
          (verify cfg secret email ch ctx sid meta now st).2.store =
          some { r with attempts := r.attempts + 1, isLocked := true, updatedAt := now }) ∧
       (r.attempts + 1 < r.maxAttempts →
        (verify cfg secret email ch ctx sid meta now st).1 =
          .error .INVALID ∧
        findById r.id
          (verify cfg secret email ch ctx sid meta now st).2.store =
          some { r with attempts := r.attempts + 1, isLocked := false, updatedAt := now }))) ∧
    (∃ r', findById r.id
        (verify cfg secret email ch ctx sid meta now st).2.store = some r' ∧
      r.attempts ≤ r'.attempts ∧ r'.attempts ≤ r.attempts + 1 ∧
      r'.attempts ≤ r.maxAttempts ∧ r'.maxAttempts = r.maxAttempts ∧
      (r.isLocked = true → r'.isLocked = true)) := by
  have hvu : verify cfg secret email ch ctx sid meta now st =
      (if r.isUsed = true then (.error .ALREADY_USED, st)
       else if r.isLocked = true then (.error .LOCKED, st)
       else if r.expiresAt < now then (.error .EXPIRED, st)
       else if (verifyOtpHash ch r.otpHash &&
           verifyHmac secret ch ctx sid r.hmac) = false then
         (if decide (r.maxAttempts ≤ r.attempts + 1) then
            (.error .ATTEMPTS_EXCEEDED,
             { st with store :=
                (updateOtp r.id
                  (fun x => { x with attempts := r.attempts + 1, isLocked := decide (r.maxAttempts ≤ r.attempts + 1), updatedAt := now })
                  st.store) })
          else
            (.error .INVALID,
             { st with store :=
                (updateOtp r.id
                  (fun x => { x with attempts := r.attempts + 1, isLocked := decide (r.maxAttempts ≤ r.attempts + 1), updatedAt := now })
                  st.store) }))
       else if cfg.strictMode && checkMetaMismatch r.requestMeta meta then
         (.error .META_MISMATCH, st)
       else
         (.ok { success := true, sessionId := sid, email := email,
                context := ctx, channel := "email" },
          { st with store :=
             (updateOtp r.id
               (fun x => { x with isUsed := true, updatedAt := now })
               st.store) })) := by
    unfold verify
    rw [if_neg (by simp [he, hch, hc, hs])]
    simp only [hfind]
  refine ⟨?_, ?_, ?_⟩
  · intro hu hl
    rw [hvu]
    simp [hu, hl]
  · intro hu hl hexp hcode
    constructor
    · intro hEq
      have hdec : decide (r.maxAttempts ≤ r.attempts + 1) = true := by
        rw [hEq]; simp
      rw [hvu]
      simp only [hu, hl, hexp, hcode, Bool.false_eq_true, if_false, if_true,
        hdec, decide_True, if_pos rfl]
      refine ⟨by trivial, ?_⟩
      rw [findById_updateOtp_fields, hbyid]
      simp [hu]
    · intro hlt
      have hdec : decide (r.maxAttempts ≤ r.attempts + 1) = false := by
        simp [Nat.not_le.2 hlt]
      rw [hvu]
      simp only [hu, hl, hexp, hcode, Bool.false_eq_true, if_false, if_true,
        hdec]
      refine ⟨by trivial, ?_⟩
      rw [findById_updateOtp_fields, hbyid]
      simp [hu]
  · by_cases hu : r.isUsed = true
    · refine ⟨r, ?_, Nat.le_refl _, Nat.le_succ _, hbound, rfl, fun h => h⟩
      rw [hvu]; simp [hu, hbyid]
    by_cases hl : r.isLocked = true
    · refine ⟨r, ?_, Nat.le_refl _, Nat.le_succ _, hbound, rfl, fun h => h⟩
      rw [hvu]; simp [hu, hl, hbyid]
    by_cases hexp : r.expiresAt < now
    · refine ⟨r, ?_, Nat.le_refl _, Nat.le_succ _, hbound, rfl, fun h => h⟩
      rw [hvu]; simp [hu, hl, hexp, hbyid]
    by_cases hcode : (verifyOtpHash ch r.otpHash &&
        verifyHmac secret ch ctx sid r.hmac) = false
    · have hl' : r.isLocked = false := by revert hl; cases r.isLocked <;> simp
      have hmax : r.attempts + 1 ≤ r.maxAttempts := hlockinv hl'
      rw [hvu]
      simp only [hu, hl, hexp, hcode, Bool.false_eq_true, if_false, if_true]
      by_cases hdec : decide (r.maxAttempts ≤ r.attempts + 1) = true
      · simp only [hdec, if_true]
        refine ⟨{ r with attempts := r.attempts + 1, isLocked := true, updatedAt := now },
          ?_, Nat.le_succ _, Nat.le_refl _, hmax, rfl, fun _ => rfl⟩
        rw [findById_updateOtp_fields, hbyid]
        simp [hu]
      · have hdec' : decide (r.maxAttempts ≤ r.attempts + 1) = false := by
          revert hdec; cases decide (r.maxAttempts ≤ r.attempts + 1) <;> simp
        simp only [hdec', Bool.false_eq_true, if_false]
        refine ⟨{ r with attempts := r.attempts + 1, isLocked := false, updatedAt := now },
          ?_, Nat.le_succ _, Nat.le_refl _, hmax, rfl, fun h => h.elim⟩
        rw [findById_updateOtp_fields, hbyid]
        simp [hu]
    · by_cases hmm : (cfg.strictMode &&
          checkMetaMismatch r.requestMeta meta) = true
      · refine ⟨r, ?_, Nat.le_refl _, Nat.le_succ _, hbound, rfl, fun h => h⟩
        rw [hvu]; simp [hu, hl, hexp, hcode, hmm, hbyid]
      · refine ⟨{ r with isUsed := true, updatedAt := now }, ?_,
          Nat.le_refl _, Nat.le_succ _, hbound, rfl, fun h => h⟩
        rw [hvu]
        simp [hu, hl, hexp, hcode, hmm, findById_updateOtp_used, hbyid]

/-- Witness for C2 at concrete inputs: submitting a wrong code four times
against a fresh record (`maxAttempts = 5`, so invariantly below the
ceiling) then a fifth time locks it: the fifth failing attempt returns
`ATTEMPTS_EXCEEDED`; here we check the first failing attempt's shape. -/
theorem C2_attempts_monotone_lockout_witness :
    (verify {} "server-secret" "user@example.com" "999999" "login" "sid-1"
      exMeta 1000 exState).1 = .error .INVALID ∧
    findById "rec-1"
      (verify {} "server-secret" "user@example.com" "999999" "login" "sid-1"
        exMeta 1000 exState).2.store =
      some { exRecord with attempts := 1, isLocked := false, updatedAt := 1000 } :=
  ((C2_attempts_monotone_lockout {} "server-secret" "user@example.com"
    "999999" "login" "sid-1" exMeta 1000 exState exRecord (by decide)
    (by decide) (by decide) (by decide) (by decide) (by decide) (by decide)
    (fun _ => by decide)).2.1 rfl rfl (by decide) (by decide)).2 (by decide)

/-! ### C4 -/

/-- C4: the duplicate-key retry path of `generate` (lines 139-177 of
`secure-email-otp.ts`) persists a record whose `sessionId` field is the
regenerated draw but whose `hmac` field is still computed over the
*original* session id variable.  Concretely: the first create attempt hits
a duplicate key, the second succeeds; the stored pair is
(`sid-B1`, HMAC over `sid-A`), the tag differs from the HMAC over the
record's own stored session id, and HMAC verification of the correct code
against the record's own session id fails. -/
theorem C4_retry_hmac_stale :
    createOtpWithRetry "server-secret" "login" "sid-A"
      (fun k => "sid-B" ++ toString k) "123456" (fun k => decide (k = 0))
      0 =
      .ok ("sid-B1", createHmac "server-secret" "123456" "login" "sid-A") ∧
    ¬ ("sid-B1" = "sid-A") ∧
    ¬ (createHmac "server-secret" "123456" "login" "sid-A" =
       createHmac "server-secret" "123456" "login" "sid-B1") ∧
    verifyHmac "server-secret" "123456" "login" "sid-B1"
      (createHmac "server-secret" "123456" "login" "sid-A") = false := by
  refine ⟨?_, by decide, by decide, by decide⟩
  rw [createOtpWithRetry, createOtpWithRetry]
  norm_num [retryAttemptRecord]
  decide

/-! ### C8 -/

/-- A world holding one record that is already expired at time 1000. -/
def exExpiredState : EngineState :=
  ⟨[{ exRecord with expiresAt := 50 }], [], []⟩

/-- Counterexample to C8 as stated: `healthCheck` is not read-only — its
store probe is `cleanupExpiredOtps()`, which deletes the expired record. -/
theorem C8_healthCheck_counterexample :
    (healthCheck true true true 1000 exExpiredState).2.store = [] ∧
    ¬ (exExpiredState.store = []) := by
  constructor
  · rfl
  · decide

/-- C8 (amended): `healthCheck` creates and updates no record, but its
store probe deletes expired records (unexpired records all survive
unchanged); the only message it can hand the notifier is the probe mail to
the reserved address `health-check@example.com`, with no code in it; and
the status is `healthy` exactly when all three probes pass, `unhealthy`
exactly when none passes, and `degraded` otherwise. -/
theorem C8_healthCheck_amended (dbOk notifOk rlOk : Bool) (now : Nat)
    (st : EngineState) :
    (∀ r ∈ (healthCheck dbOk notifOk rlOk now st).2.store, r ∈ st.store) ∧
    (∀ r ∈ st.store, now < r.expiresAt →
      r ∈ (healthCheck dbOk notifOk rlOk now st).2.store) ∧
    (∀ r ∈ st.store, r ∉ (healthCheck dbOk notifOk rlOk now st).2.store →
      r.expiresAt ≤ now) ∧
    ((healthCheck dbOk notifOk rlOk now st).2.outbox = st.outbox ∨
     (healthCheck dbOk notifOk rlOk now st).2.outbox =
       st.outbox ++ [⟨"health-check@example.com", none⟩]) ∧
    ((healthCheck dbOk notifOk rlOk now st).1.status = .healthy ↔
      dbOk = true ∧ notifOk = true ∧ rlOk = true) ∧
    ((healthCheck dbOk notifOk rlOk now st).1.status = .unhealthy ↔
      dbOk = false ∧ notifOk = false ∧ rlOk = false) := by
  have hst : (healthCheck dbOk notifOk rlOk now st).2.store =
      if dbOk then cleanupExpiredOtps now st.store else st.store := rfl
  refine ⟨?_, ?_, ?_, ?_,
    by cases dbOk <;> cases notifOk <;> cases rlOk <;> simp [healthCheck],
    by cases dbOk <;> cases notifOk <;> cases rlOk <;> simp [healthCheck]⟩
  · intro r hr
    rw [hst] at hr
    cases dbOk
    · simpa using hr
    · simp only [if_true] at hr
      exact List.mem_of_mem_filter hr
  · intro r hr hlt
    rw [hst]
    cases dbOk
    · simpa using hr
    · simp only [if_true]
      exact List.mem_filter.2 ⟨hr, by simpa using hlt⟩
  · intro r hr hnot
    rw [hst] at hnot
    cases dbOk
    · simp at hnot
      exact absurd hr hnot
    · simp only [if_true] at hnot
      by_contra hgt
      exact hnot (List.mem_filter.2 ⟨hr, by simpa using Nat.lt_of_not_le hgt⟩)
  · cases notifOk
    · exact Or.inl rfl
    · exact Or.inr rfl

/-- Witness for C8's amended statement at concrete inputs: all probes pass
on the expired-record world — status `healthy`, and the surviving store is
a subset of the original. -/
theorem C8_healthCheck_amended_witness :
    (healthCheck true true true 1000 exExpiredState).1.status =
      HealthStatus.healthy :=
  (C8_healthCheck_amended true true true 1000
    exExpiredState).2.2.2.2.1.mpr ⟨rfl, rfl, rfl⟩

/-! ### C9 -/

/-- A governor map holding one expired entry for key `k`. -/
def exLimits : Limits := [("k", ⟨1, 5⟩)]

/-- Counterexample to C9 as stated: `checkLimit` does mutate the counter
map — on an expired entry it deletes the key. -/
theorem C9_checkLimit_counterexample :
    ¬ ((checkLimit exLimits 10 "k" 3).2 = exLimits) := by
  decide

/-- C9 (amended): `checkLimit` never creates or modifies an entry — every
entry of the post-map was already present, identical, in the pre-map, and
entries under other keys are untouched; the map is returned unchanged
whenever the queried key is absent or its window is still live, and the
only mutation is deleting the queried key's entry once its window has
expired.  Counters are only ever increased by `increment`. -/
theorem C9_checkLimit_mutates_only_expired (m : Limits) (now : Nat)
    (key : String) (limit : Nat) :
    (∀ k, ¬ k = key →
      lget (checkLimit m now key limit).2 k = lget m k) ∧
    (lget m key = none → (checkLimit m now key limit).2 = m) ∧
    (∀ e, lget m key = some e → ¬ e.resetTime < now →
      (checkLimit m now key limit).2 = m) ∧
    (∀ e, lget m key = some e → e.resetTime < now →
      (checkLimit m now key limit).2 = ldel m key ∧
      lget (checkLimit m now key limit).2 key = none) ∧
    (∀ k e', lget (checkLimit m now key limit).2 k = some e' →
      lget m k = some e') := by
  cases hg : lget m key with
  | none =>
      have h2 : (checkLimit m now key limit).2 = m := by
        rw [checkLimit_of_lget_none _ _ _ _ hg]
      exact ⟨fun k _ => by rw [h2], fun _ => h2,
        fun e he => Option.noConfusion he,
        fun e he => Option.noConfusion he,
        fun k e' he' => by rw [h2] at he'; exact he'⟩
  | some e =>
      by_cases hexp : e.resetTime < now
      · have h2 : (checkLimit m now key limit).2 = ldel m key := by
          rw [checkLimit_of_expired _ _ _ _ e hg hexp]
        refine ⟨fun k hk => by rw [h2, lget_ldel_ne _ _ _ hk],
          fun hnone => Option.noConfusion hnone,
          fun e' he' hl => ?_,
          fun e' he' _ => ⟨h2, by rw [h2, lget_ldel_self]⟩,
          fun k e' he' => ?_⟩
        · have hee : e = e' := Option.some.inj he'
          exact absurd (hee ▸ hexp) hl
        · rw [h2] at he'
          by_cases hk : k = key
          · rw [hk, lget_ldel_self] at he'
            exact Option.noConfusion he'
          · rw [lget_ldel_ne _ _ _ hk] at he'
            exact he'
      · have h2 : (checkLimit m now key limit).2 = m := by
          rw [checkLimit_of_live _ _ _ _ e hg hexp]
        refine ⟨fun k _ => by rw [h2],
          fun hnone => Option.noConfusion hnone,
          fun _ _ _ => h2,
          fun e' he' hl => ?_,
          fun k e' he' => by rw [h2] at he'; exact he'⟩
        have hee : e = e' := Option.some.inj he'
        rw [← hee] at hl
        exact absurd hl hexp

/-- Witness for C9's amended statement at concrete inputs: with a live
entry (`now = 3`, reset at 5) the map comes back unchanged. -/
theorem C9_checkLimit_mutates_only_expired_witness :
    (checkLimit exLimits 3 "k" 3).2 = exLimits :=
  (C9_checkLimit_mutates_only_expired exLimits 3 "k" 3).2.2.1 ⟨1, 5⟩ rfl
    (by decide)

/-! ### C3: support lemmas -/

/-- After `cleanupConflictingOtps`, any two surviving records matching the
(email, context, channel) key are the same record: the cleanup keeps only
the most recent matching record whenever more than one matched. -/
theorem cleanup_matching_unique (email ctx ch : String) (l : List OtpRecord)
    (r1 r2 : OtpRecord)
    (h1 : r1 ∈ cleanupConflictingOtps email ctx ch l)
    (h2 : r2 ∈ cleanupConflictingOtps email ctx ch l)
    (m1 : r1.email = email ∧ r1.context = ctx ∧ r1.channel = ch)
    (m2 : r2.email = email ∧ r2.context = ctx ∧ r2.channel = ch) :
    r1 = r2 := by
  unfold cleanupConflictingOtps at h1 h2
  rcases hms : l.filter (fun o =>
      decide (o.email = email ∧ o.context = ctx ∧ o.channel = ch)) with
    _ | ⟨m, rest⟩
  · simp only [hms] at h1
    exfalso
    have hmem : r1 ∈ l.filter (fun o =>
        decide (o.email = email ∧ o.context = ctx ∧ o.channel = ch)) :=
      List.mem_filter.2 ⟨h1, by simp [m1.1, m1.2.1, m1.2.2]⟩
    rw [hms] at hmem
    exact absurd hmem (List.not_mem_nil _)
  · rcases rest with _ | ⟨m2', rest2⟩
    · simp only [hms] at h1 h2
      have e1 : r1 ∈ l.filter (fun o =>
          decide (o.email = email ∧ o.context = ctx ∧ o.channel = ch)) :=
        List.mem_filter.2 ⟨h1, by simp [m1.1, m1.2.1, m1.2.2]⟩
      have e2 : r2 ∈ l.filter (fun o =>
          decide (o.email = email ∧ o.context = ctx ∧ o.channel = ch)) :=
        List.mem_filter.2 ⟨h2, by simp [m2.1, m2.2.1, m2.2.2]⟩
      rw [hms] at e1 e2
      simp only [List.mem_singleton] at e1 e2
      rw [e1, e2]
    · simp only [hms] at h1 h2
      have survives : ∀ r : OtpRecord,
          r ∈ l.filter (fun o => decide (¬ o.id ∈
            (((m :: m2' :: rest2).erase
              (mostRecent m (m2' :: rest2))).map fun o => o.id))) →
          r.email = email → r.context = ctx → r.channel = ch →
          r = mostRecent m (m2' :: rest2) := by
        intro r hr hre hrc hrch
        have hrl : r ∈ l := List.mem_of_mem_filter hr
        have hrnot : ¬ r.id ∈ (((m :: m2' :: rest2).erase
            (mostRecent m (m2' :: rest2))).map fun o => o.id) := by
          have := List.of_mem_filter hr
          simpa using this
        by_contra hne
        have hrm : r ∈ (m :: m2' :: rest2) := by
          have : r ∈ l.filter (fun o =>
              decide (o.email = email ∧ o.context = ctx ∧ o.channel = ch)) :=
            List.mem_filter.2 ⟨hrl, by simp [hre, hrc, hrch]⟩
          rw [hms] at this
          exact this
        have : r ∈ (m :: m2' :: rest2).erase (mostRecent m (m2' :: rest2)) :=
          (List.mem_erase_of_ne hne).2 hrm
        exact hrnot (List.mem_map_of_mem _ this)
      rw [survives r1 h1 m1.1 m1.2.1 m1.2.2,
        survives r2 h2 m2.1 m2.2.1 m2.2.2]

/-- `cleanupConflictingOtps` only deletes, so id-uniqueness survives it. -/
theorem cleanup_sublist (email ctx ch : String) (l : List OtpRecord) :
    List.Sublist (cleanupConflictingOtps email ctx ch l) l := by
  unfold cleanupConflictingOtps
  rcases hms : l.filter (fun o =>
      decide (o.email = email ∧ o.context = ctx ∧ o.channel = ch)) with
    _ | ⟨m, rest⟩
  · simp only [hms]
    exact List.Sublist.refl l
  · rcases rest with _ | ⟨m2', rest2⟩
    · simp only [hms]
      exact List.Sublist.refl l
    · simp only [hms]
      exact List.filter_sublist l

/-- After marking the (unique, by id-uniqueness) record with id `i` in a
store where every `Q`-satisfying record has id `i`, no record satisfies
`Q` any more — provided the marking update itself falsifies `Q`. -/
theorem updateOtp_none_satisfies (i : String) (f : OtpRecord → OtpRecord)
    (Q : OtpRecord → Bool) (hQf : ∀ x, Q (f x) = false) :
    ∀ (l : List OtpRecord), (l.map (fun o => o.id)).Nodup →
      (∀ x ∈ l, Q x = true → x.id = i) →
      ∀ r' ∈ updateOtp i f l, Q r' = false
  | [], _, _ => by simp [updateOtp]
  | r :: rs, hnd, hall => by
      have hndc : ¬ r.id ∈ rs.map (fun o => o.id) :=
        (List.nodup_cons.1 (by simpa using hnd)).1
      have hndt : (rs.map (fun o => o.id)).Nodup :=
        (List.nodup_cons.1 (by simpa using hnd)).2
      by_cases hr : r.id = i
      · intro r' hr'
        simp only [updateOtp, hr, if_pos] at hr'
        rcases List.mem_cons.1 hr' with h' | h'
        · rw [h']; exact hQf r
        · by_contra hq
          have hq' : Q r' = true := by revert hq; cases Q r' <;> simp
          have hid : r'.id = i := hall r' (List.mem_cons_of_mem _ h') hq'
          exact hndc (by rw [hr, ← hid]; exact List.mem_map_of_mem _ h')
      · intro r' hr'
        simp only [updateOtp, hr, if_neg, if_false] at hr'
        rcases List.mem_cons.1 hr' with h' | h'
        · rw [h']
          by_contra hq
          have hq' : Q r = true := by revert hq; cases Q r <;> simp
          exact hr (hall r (List.mem_cons_self _ _) hq')
        · exact updateOtp_none_satisfies i f Q hQf rs hndt
            (fun x hx => hall x (List.mem_cons_of_mem _ hx)) r' h'

/-- Marking the unique carrier of id `i` commutes with a `find?` whose
predicate ignores the marked fields, when every `Q`-record carries id
`i`. -/
theorem find?_updateOtp_map (i : String) (f : OtpRecord → OtpRecord)
    (Q : OtpRecord → Bool) (hQf : ∀ x, Q (f x) = Q x)
    (hf : ∀ x, (f x).id = x.id) :
    ∀ (l : List OtpRecord), (l.map (fun o => o.id)).Nodup →
      (∀ x ∈ l, Q x = true → x.id = i) →
      (updateOtp i f l).find? Q = (l.find? Q).map f
  | [], _, _ => rfl
  | r :: rs, hnd, hall => by
      have hndc : ¬ r.id ∈ rs.map (fun o => o.id) :=
        (List.nodup_cons.1 (by simpa using hnd)).1
      have hndt : (rs.map (fun o => o.id)).Nodup :=
        (List.nodup_cons.1 (by simpa using hnd)).2
      by_cases hr : r.id = i
      · simp only [updateOtp, hr, if_pos]
        cases hq : Q r with
        | true =>
            simp [List.find?, hQf r, hq]
        | false =>
            have hnone : rs.find? Q = none := by
              apply List.find?_eq_none.2
              intro x hx
              intro hqx
              have hid : x.id = i := hall x (List.mem_cons_of_mem _ hx) hqx
              exact hndc (by rw [hr, ← hid]; exact List.mem_map_of_mem _ hx)
            simp [List.find?, hQf r, hq, hnone]
      · have hq : Q r = false := by
          by_contra hq
          have hq' : Q r = true := by revert hq; cases Q r <;> simp
          exact hr (hall r (List.mem_cons_self _ _) hq')
        simp only [updateOtp, hr, if_neg, if_false]
        simp [List.find?, hq, find?_updateOtp_map i f Q hQf hf rs hndt
          (fun x hx => hall x (List.mem_cons_of_mem _ hx))]

/-- `reconcileFound` when an active record exists: it is marked used in
place and `isResent` is true. -/
theorem reconcileFound_some (email ctx : String) (now : Nat)
    (l : List OtpRecord) (r0 : OtpRecord)
    (hact : findActiveOtp email ctx "email" now l = some r0) :
    reconcileFound email ctx now l =
      (updateOtp r0.id
        (fun x => { x with isUsed := true, updatedAt := now }) l, true) := by
  unfold reconcileFound
  simp only [hact]
  rw [if_pos]
  exact List.any_eq_true.2 ⟨r0, List.mem_of_find?_eq_some hact, by simp⟩

/-- `reconcileFound` when no active record exists: nothing changes and
`isResent` is false. -/
theorem reconcileFound_none (email ctx : String) (now : Nat)
    (l : List OtpRecord)
    (hact : findActiveOtp email ctx "email" now l = none) :
    reconcileFound email ctx now l = (l, false) := by
  unfold reconcileFound
  simp only [hact]

theorem reconcileActive_fst_none (email ctx : String) (now : Nat)
    (l : List OtpRecord)
    (hact : findActiveOtp email ctx "email" now
      (cleanupConflictingOtps email ctx "email" l) = none) :
    (reconcileActive email ctx now l).1 =
      cleanupConflictingOtps email ctx "email" l := by
  unfold reconcileActive
  rw [reconcileFound_none _ _ _ _ hact]

theorem reconcileActive_fst_some (email ctx : String) (now : Nat)
    (l : List OtpRecord) (r0 : OtpRecord)
    (hact : findActiveOtp email ctx "email" now
      (cleanupConflictingOtps email ctx "email" l) = some r0) :
    (reconcileActive email ctx now l).1 =
      updateOtp r0.id (fun x => { x with isUsed := true, updatedAt := now })
        (cleanupConflictingOtps email ctx "email" l) := by
  unfold reconcileActive
  rw [reconcileFound_some _ _ _ _ _ hact]

theorem reconcileActive_snd (email ctx : String) (now : Nat)
    (l : List OtpRecord) :
    (reconcileActive email ctx now l).2 =
      (findActiveOtp email ctx "email" now
        (cleanupConflictingOtps email ctx "email" l)).isSome := by
  unfold reconcileActive
  rcases hact : findActiveOtp email ctx "email" now
      (cleanupConflictingOtps email ctx "email" l) with _ | r0
  · rw [reconcileFound_none _ _ _ _ hact]
    rfl
  · rw [reconcileFound_some _ _ _ _ _ hact]
    rfl

/-! ### C3 -/

/-- C3: after a successful `issue()`, at most one active record exists for
the (email, context, 'email') key — any still-active matching record in the
post-state carries the new session id; the prior active record found during
issuance (after the conflicting-records sweep) was neutralized, so
verifying its session now fails with `ALREADY_USED` whatever code is
submitted; and the returned `resent` flag is true exactly when such a prior
active record was found.  Id-uniqueness of the store (a `Map` invariant)
and freshness of the drawn session/record ids are hypotheses. -/
theorem C3_one_active_per_key (cfg : OtpConfig)
    (secret email ctx otp sid recId : String) (meta : RequestMeta)
    (now : Nat) (st : EngineState)
    (he : ¬ email = "") (hc : ¬ ctx = "")
    (hcan : (checkLimit st.limits now (rlKey email) cfg.maxPerWindow).1 = true)
    (hid : ∀ r ∈ st.store, ¬ r.id = recId)
    (hnd : (st.store.map (fun o => o.id)).Nodup) :
    ((generate cfg secret true email ctx meta now sid recId otp st).1 =
      .ok { sessionId := sid, expiresAt := now + cfg.expiryMs,
            isResent := (findActiveOtp email ctx "email" now
              (cleanupConflictingOtps email ctx "email" st.store)).isSome,
            otp := if cfg.strictMode then none else some otp }) ∧
    (∀ r' ∈ (generate cfg secret true email ctx meta now sid recId otp
        st).2.store,
      r'.email = email → r'.context = ctx → r'.channel = "email" →
      r'.isUsed = false → r'.isLocked = false → now < r'.expiresAt →
      r'.sessionId = sid) ∧
    (∀ r0, findActiveOtp email ctx "email" now
        (cleanupConflictingOtps email ctx "email" st.store) = some r0 →
      ¬ r0.sessionId = "" → ∀ (ch : String) (meta' : RequestMeta),
      ¬ ch = "" →
      (verify cfg secret email ch ctx r0.sessionId meta' now
        (generate cfg secret true email ctx meta now sid recId otp
          st).2).1 = .error .ALREADY_USED) := by
  have hshape := generate_ok_shape cfg secret email ctx meta now sid recId
    otp st he hc hcan hid
  have hndCL : ((cleanupConflictingOtps email ctx "email" st.store).map
      (fun o => o.id)).Nodup :=
    ((cleanup_sublist email ctx "email" st.store).map (fun o => o.id)).nodup
      hnd
  refine ⟨?_, ?_, ?_⟩
  · rw [hshape, reconcileActive_snd]
  · intro r' hr' hre hrc hrch hru hrl hrexp
    rw [hshape] at hr'
    simp only at hr'
    rcases List.mem_append.1 hr' with hr' | hr'
    · exfalso
      have hQr' : (fun o => decide (o.channel = "email" ∧ o.context = ctx ∧
          o.isUsed = false ∧ o.isLocked = false ∧ now < o.expiresAt ∧
          o.email = email)) r' = true := by
        simp [hre, hrc, hrch, hru, hrl, hrexp]
      rcases hact : findActiveOtp email ctx "email" now
          (cleanupConflictingOtps email ctx "email" st.store) with _ | r0
      · rw [reconcileActive_fst_none _ _ _ _ hact] at hr'
        exact absurd hQr'
          (by simpa using List.find?_eq_none.1 hact r' hr')
      · rw [reconcileActive_fst_some _ _ _ _ _ hact] at hr'
        have hr0mem : r0 ∈ cleanupConflictingOtps email ctx "email"
            st.store := List.mem_of_find?_eq_some hact
        have hr0act := List.find?_some hact
        simp only [decide_eq_true_eq] at hr0act
        have hall : ∀ x ∈ cleanupConflictingOtps email ctx "email" st.store,
            (fun o => decide (o.channel = "email" ∧ o.context = ctx ∧
              o.isUsed = false ∧ o.isLocked = false ∧ now < o.expiresAt ∧
              o.email = email)) x = true → x.id = r0.id := by
          intro x hx hqx
          simp only [decide_eq_true_eq] at hqx
          rw [cleanup_matching_unique email ctx "email" st.store x r0 hx
            hr0mem ⟨hqx.2.2.2.2.2, hqx.2.1, hqx.1⟩
            ⟨hr0act.2.2.2.2.2, hr0act.2.1, hr0act.1⟩]
        have := updateOtp_none_satisfies r0.id
          (fun x => { x with isUsed := true, updatedAt := now })
          (fun o => decide (o.channel = "email" ∧ o.context = ctx ∧
            o.isUsed = false ∧ o.isLocked = false ∧ now < o.expiresAt ∧
            o.email = email))
          (by intro x; simp)
          (cleanupConflictingOtps email ctx "email" st.store) hndCL hall r'
          hr'
        rw [hQr'] at this
        cases this
    · simp only [List.mem_singleton] at hr'
      rw [hr', newOtpRecord]
  · intro r0 hact hs0 ch meta' hch
    rw [hshape]
    have hr0mem : r0 ∈ cleanupConflictingOtps email ctx "email" st.store :=
      List.mem_of_find?_eq_some hact
    have hr0act := List.find?_some hact
    simp only [decide_eq_true_eq] at hr0act
    have hallQ2 : ∀ x ∈ cleanupConflictingOtps email ctx "email" st.store,
        (fun o => decide (o.channel = "email" ∧ o.context = ctx ∧
          o.sessionId = r0.sessionId ∧ o.email = email)) x = true →
        x.id = r0.id := by
      intro x hx hqx
      simp only [decide_eq_true_eq] at hqx
      rw [cleanup_matching_unique email ctx "email" st.store x r0 hx hr0mem
        ⟨hqx.2.2.2, hqx.2.1, hqx.1⟩
        ⟨hr0act.2.2.2.2.2, hr0act.2.1, hr0act.1⟩]
    have hfindCL : (cleanupConflictingOtps email ctx "email"
        st.store).find? (fun o => decide (o.channel = "email" ∧
          o.context = ctx ∧ o.sessionId = r0.sessionId ∧
          o.email = email)) = some r0 := by
      have hQ2r0 : (fun o => decide (o.channel = "email" ∧ o.context = ctx ∧
          o.sessionId = r0.sessionId ∧ o.email = email)) r0 = true := by
        simp [hr0act.1, hr0act.2.1, hr0act.2.2.2.2.2]
      have hexists : ((cleanupConflictingOtps email ctx "email"
          st.store).find? (fun o => decide (o.channel = "email" ∧
            o.context = ctx ∧ o.sessionId = r0.sessionId ∧
            o.email = email))).isSome :=
        List.find?_isSome.2 ⟨r0, hr0mem, hQ2r0⟩
      rcases Option.isSome_iff_exists.1 hexists with ⟨y, hy⟩
      have hyQ := List.find?_some hy
      have hymem := List.mem_of_find?_eq_some hy
      simp only [decide_eq_true_eq] at hyQ
      rw [hy, cleanup_matching_unique email ctx "email" st.store y r0 hymem
        hr0mem ⟨hyQ.2.2.2, hyQ.2.1, hyQ.1⟩
        ⟨hr0act.2.2.2.2.2, hr0act.2.1, hr0act.1⟩]
    have hfound : findOtp email ctx r0.sessionId "email"
        ((reconcileActive email ctx now st.store).1 ++
          [newOtpRecord cfg secret email ctx sid recId otp meta now]) =
        some { r0 with isUsed := true, updatedAt := now } := by
      rw [reconcileActive_fst_some _ _ _ _ _ hact, findOtp,
        List.find?_append]
      rw [find?_updateOtp_map r0.id
        (fun x => { x with isUsed := true, updatedAt := now })
        (fun o => decide (o.channel = "email" ∧ o.context = ctx ∧
          o.sessionId = r0.sessionId ∧ o.email = email))
        (by intro x; simp) (fun x => rfl)
        (cleanupConflictingOtps email ctx "email" st.store) hndCL hallQ2,
        hfindCL]
      rfl
    rw [verify_used_fails cfg secret email ch ctx r0.sessionId meta' now _
      { r0 with isUsed := true, updatedAt := now } he hch hc hs0 hfound rfl]

/-- Witness for C3 at concrete inputs: issuing twice for the same
(destination, context), the second result carries `isResent = true`, and
verifying the first session with the correct first code now fails with
`ALREADY_USED`. -/
theorem C3_one_active_per_key_witness :
    ((generate {} "server-secret" true "user@example.com" "login" exMeta
      1000 "sid-2" "rec-2" "654321"
      (generate {} "server-secret" true "user@example.com" "login" exMeta
        1000 "sid-1" "rec-1" "123456" emptyState).2).1 =
      .ok { sessionId := "sid-2", expiresAt := 121000, isResent := true,
            otp := none }) ∧
    (verify {} "server-secret" "user@example.com" "123456" "login" "sid-1"
      exMeta 1000
      (generate {} "server-secret" true "user@example.com" "login" exMeta
        1000 "sid-2" "rec-2" "654321"
        (generate {} "server-secret" true "user@example.com" "login" exMeta
          1000 "sid-1" "rec-1" "123456" emptyState).2).2).1 =
      .error .ALREADY_USED := by
  have h := C3_one_active_per_key {} "server-secret" "user@example.com"
    "login" "654321" "sid-2" "rec-2" exMeta 1000
    (generate {} "server-secret" true "user@example.com" "login" exMeta
      1000 "sid-1" "rec-1" "123456" emptyState).2 (by decide) (by decide)
    (by rfl) (by decide) (by decide)
  exact ⟨h.1, h.2.2 _ (by rfl) (by decide) "123456" exMeta (by decide)⟩

end SecureOtp
